import Mathlib

/-!
# cppsm: a table-driven finite-state machine

Shallow embedding of `StateMachine.hpp` (the engine) and of `test.cpp` (the
handshake demonstration), followed by theorems about them.

Modelling conventions.

* `std::map<K, V>` is a list of nodes `(key, value)`.  Only `count`,
  `operator[]` and assignment through the reference it returns are used by
  the engine, so only those are modelled; the engine never iterates, hence the
  position of a node in the list is not observable.
* A member function that may throw returns the object as it is when control
  leaves the function together with the exception in flight, if any.
* `StateTransitionCallback` is a nullable function pointer: `Option Cb`, where
  `Cb` is the type of function values.  What a callback does when it is called
  is a parameter `call : Cb → W → W × Option X`: from the outside world `W` to
  the world it leaves and the exception it throws, if any.  Callbacks take no
  argument and the engine hands them nothing, so they do not reach the engine.
* A ghost `trace` records every callback invocation, oldest first.
* `operator<<` on the state and event types is supplied by the program that
  instantiates the template; it is the class `StreamInsert`.
-/

namespace cppsm

/-! ## `std::ostream` (as much as the error message needs) -/

/-- Output stream: the characters written so far and the fail bit. -/
structure OStream where
  buf : String
  failbit : Bool
deriving DecidableEq, Repr

namespace OStream

/-- A fresh `std::stringstream`. -/
def empty : OStream := ⟨"", false⟩

/-- Insertion of a string: `os << s`; nothing is written once the fail bit is set. -/
def write (os : OStream) (s : String) : OStream :=
  if os.failbit then os else ⟨os.buf ++ s, os.failbit⟩

/-- Member `setstate(ios_base::failbit)`. -/
def setFail (os : OStream) : OStream := ⟨os.buf, true⟩

/-- Member `str()`. -/
def str (os : OStream) : String := os.buf

end OStream

/-- The `operator<<(ostream&, T)` in scope where the template is instantiated. -/
class StreamInsert (α : Type) where
  insert : OStream → α → OStream

/-! ## `std::map` -/

/-- Nodes of a `std::map<K, V>`. -/
abbrev Map (K V : Type) := List (K × V)

namespace Map

variable {K V : Type} [DecidableEq K]

/-- Member `count(k)`: the number of nodes with key `k` found by the search, 0 or 1. -/
def count : Map K V → K → Nat
  | [], _ => 0
  | (k', _) :: rest, k => if k' = k then 1 else count rest k

/-- Member `find(k)`: the mapped value of the node with key `k`, if there is one. -/
def find : Map K V → K → Option V
  | [], _ => none
  | (k', v) :: rest, k => if k' = k then some v else find rest k

/-- Assignment through a reference to the mapped value of the node with key `k`. -/
def store : Map K V → K → V → Map K V
  | [], _, _ => []
  | (k', v') :: rest, k, v => if k' = k then (k', v) :: rest else (k', v') :: store rest k v

/-- Member `operator[](k)`: when no node has key `k`, one is inserted with a
value-initialised mapped value; the result is the mapped value the returned
reference designates and the map after the call. -/
def subscript [Inhabited V] (m : Map K V) (k : K) : V × Map K V :=
  match find m k with
  | some v => (v, m)
  | none => (default, (k, default) :: m)

end Map

/-! ## `StateMachineException` -/

/-- Class for runtime exceptions in StateMachine. -/
structure StateMachineException where
  m_what : String
deriving DecidableEq, Repr

/-- Member `what()`. -/
def StateMachineException.what (ex : StateMachineException) : String := ex.m_what

/-- Member `c_str()` of `std::string`, read as the C string it points to: the
characters before the first NUL. -/
def c_str (s : String) : String :=
  String.mk (s.data.takeWhile fun c => c ≠ Char.ofNat 0)

/-- Constructor `StateMachineException(const char *what)`: `m_what` is
initialised from the C string. -/
def StateMachineException.new (what : String) : StateMachineException :=
  ⟨what⟩

/-! ## Callbacks and the world they act on -/

/-- Everything outside the engine, with the ghost trace of callback invocations. -/
structure World (W Cb : Type) where
  ext : W
  trace : List Cb
deriving DecidableEq, Repr

/-- A call `f()` through a non-null function pointer: the invocation is
recorded, the function acts on the world and returns or throws. -/
def invoke {W Cb X : Type} (call : Cb → W → W × Option X) (f : Cb) (o : World W Cb) :
    World W Cb × Option X :=
  (⟨(call f o.ext).1, o.trace ++ [f]⟩, (call f o.ext).2)

/-! ## `StateMachine` -/

/-- Class for a StateMachine with state set S and event set (alphabet) E. -/
structure StateMachine (S E Cb : Type) where
  m_currentState : S
  m_transitionMap : Map (S × E) (S × Option Cb)
deriving DecidableEq, Repr

/-- What `AddTransition` leaves: the engine and the exception thrown, if any. -/
structure Added (S E Cb : Type) where
  self : StateMachine S E Cb
  raised : Option StateMachineException
deriving DecidableEq, Repr

/-- What `SendEvent` leaves: the engine, the world and the exception that
escaped from the callback, if any. -/
structure Sent (S E Cb W X : Type) where
  self : StateMachine S E Cb
  world : World W Cb
  raised : Option X
deriving DecidableEq, Repr

namespace StateMachine

variable {S E Cb W X : Type} [DecidableEq S] [DecidableEq E]

/-- Constructor: specifies the initial state of the StateMachine. -/
def new (initialState : S) : StateMachine S E Cb :=
  ⟨initialState, []⟩

/-- Returns the current state of the StateMachine. -/
def GetState (sm : StateMachine S E Cb) : S :=
  sm.m_currentState

/-- The exception built in `AddTransition` (lines 82-84): the message is
streamed into a fresh `stringstream`, and the exception is constructed from
`ss.str().c_str()`. -/
def duplicateTransition [StreamInsert S] [StreamInsert E] (fromState : S) (onEvent : E) :
    StateMachineException :=
  let ss := OStream.empty
  let ss := ss.write "Duplicate transition from state "
  let ss := StreamInsert.insert ss fromState
  let ss := ss.write " on event "
  let ss := StreamInsert.insert ss onEvent
  StateMachineException.new (c_str ss.str)

/-- Adds a transition to the StateMachine. Raises a StateMachineException
if a transition is already defined for this (fromState, onEvent) pair. -/
def AddTransition [StreamInsert S] [StreamInsert E] [Inhabited S]
    (sm : StateMachine S E Cb) (fromState toState : S) (onEvent : E)
    (withCallback : Option Cb) : Added S E Cb :=
  let event : S × E := (fromState, onEvent)
  let action : S × Option Cb := (toState, withCallback)
  if Map.count sm.m_transitionMap event ≠ 0 then
    ⟨sm, some (duplicateTransition fromState onEvent)⟩
  else
    let m := (Map.subscript sm.m_transitionMap event).2
    ⟨⟨sm.m_currentState, Map.store m event action⟩, none⟩

/-- Adds a loop-transition to the StateMachine (the three-argument overload
of `AddTransition`). -/
def AddTransitionLoop [StreamInsert S] [StreamInsert E] [Inhabited S]
    (sm : StateMachine S E Cb) (fromState : S) (onEvent : E)
    (withCallback : Option Cb) : Added S E Cb :=
  AddTransition sm fromState fromState onEvent withCallback

/-- Triggers an event in the StateMachine. If no transition is specified
for this event when in the current state, it is silently ignored. -/
def SendEvent [Inhabited S] (call : Cb → W → W × Option X)
    (sm : StateMachine S E Cb) (event : E) (o : World W Cb) : Sent S E Cb W X :=
  let eventPair : S × E := (sm.m_currentState, event)
  if Map.count sm.m_transitionMap eventPair ≠ 0 then
    let r := Map.subscript sm.m_transitionMap eventPair
    let a : S × Option Cb := r.1
    match a.2 with
    | some f =>
      match invoke call f o with
      | (o', some x) => ⟨⟨sm.m_currentState, r.2⟩, o', some x⟩
      | (o', none) => ⟨⟨a.1, r.2⟩, o', none⟩
    | none => ⟨⟨a.1, r.2⟩, o, none⟩
  else
    ⟨sm, o, none⟩

/-- A run of `SendEvent` statements, one per event in order; an exception that
escapes from one of them ends the run. -/
def SendEvents [Inhabited S] (call : Cb → W → W × Option X) :
    StateMachine S E Cb → List E → World W Cb → Sent S E Cb W X
  | sm, [], o => ⟨sm, o, none⟩
  | sm, e :: es, o =>
    match SendEvent call sm e o with
    | ⟨sm', o', none⟩ => SendEvents call sm' es o'
    | ⟨sm', o', some x⟩ => ⟨sm', o', some x⟩

/-- The entry of the transition table under key `(s, e)`, if any. -/
def entry (sm : StateMachine S E Cb) (s : S) (e : E) : Option (S × Option Cb) :=
  Map.find sm.m_transitionMap (s, e)

end StateMachine

/-! ## Callers

A caller holds one engine and the world, and makes calls on the public
interface in some order.  Here it catches whatever a call throws and goes on
with the next call, so that calls that fail are part of the sequences. -/

/-- One call on the public interface that can change the engine. -/
inductive Op (S E Cb : Type) where
  | add (fromState toState : S) (onEvent : E) (withCallback : Option Cb)
  | addLoop (fromState : S) (onEvent : E) (withCallback : Option Cb)
  | send (event : E)
deriving DecidableEq, Repr

namespace Op

variable {S E Cb W X : Type} [DecidableEq S] [DecidableEq E]

/-- The engine and the world after one call, whether it returned or threw. -/
def perform [StreamInsert S] [StreamInsert E] [Inhabited S] (call : Cb → W → W × Option X)
    (c : StateMachine S E Cb × World W Cb) : Op S E Cb → StateMachine S E Cb × World W Cb
  | add fromState toState onEvent withCallback =>
    ((c.1.AddTransition fromState toState onEvent withCallback).self, c.2)
  | addLoop fromState onEvent withCallback =>
    ((c.1.AddTransitionLoop fromState onEvent withCallback).self, c.2)
  | send event =>
    ((StateMachine.SendEvent call c.1 event c.2).self,
     (StateMachine.SendEvent call c.1 event c.2).world)

/-- The engine and the world after a sequence of calls made in order. -/
def performAll [StreamInsert S] [StreamInsert E] [Inhabited S] (call : Cb → W → W × Option X)
    (c : StateMachine S E Cb × World W Cb) (ops : List (Op S E Cb)) :
    StateMachine S E Cb × World W Cb :=
  ops.foldl (perform call) c

end Op

/-! ## `test.cpp`: the handshake demonstration -/

namespace test

/-- Enum specifying the FSM's states. -/
inductive MyState where
  | INIT
  | SENT_HELLO
  | SENT_AUTH
  | READY
deriving DecidableEq, Repr

/-- Enum specifying the FSM's alphabet / events. -/
inductive MyEvent where
  | EPSILON
  | TIMEOUT
  | RECV_OK
deriving DecidableEq, Repr

/-- Value-initialisation of the enum gives the value 0, which is `INIT`. -/
instance : Inhabited MyState := ⟨MyState.INIT⟩

/-- Stream operator overload to pretty-print the states (the `default:` branch
of the switch is for values that are no enumerator; the type has none). -/
instance : StreamInsert MyState where
  insert os s :=
    match s with
    | MyState.INIT => os.write "INIT"
    | MyState.SENT_HELLO => os.write "SENT_HELLO"
    | MyState.SENT_AUTH => os.write "SENT_AUTH"
    | MyState.READY => os.write "READY"

/-- Stream operator overload to pretty-print the events. -/
instance : StreamInsert MyEvent where
  insert os s :=
    match s with
    | MyEvent.EPSILON => os.write "EPSILON"
    | MyEvent.TIMEOUT => os.write "TIMEOUT"
    | MyEvent.RECV_OK => os.write "RECV_OK"

/-- Every value of type `MyEvent`: with enumerators 0, 1 and 2 the enumeration
has the values 0 to 3, and 3 (reached by a cast) is no enumerator. -/
structure MyEventValue where
  val : Fin 4
deriving DecidableEq, Repr

/-- Value-initialisation gives the value 0. -/
instance : Inhabited MyEventValue := ⟨⟨0⟩⟩

/-- Stream operator overload to pretty-print the events, on every value of the
type: a value that is no enumerator takes the `default:` branch. -/
instance : StreamInsert MyEventValue where
  insert os s :=
    match s.val with
    | 0 => os.write "EPSILON"
    | 1 => os.write "TIMEOUT"
    | 2 => os.write "RECV_OK"
    | _ => os.setFail

/-- The two functions whose addresses are passed as callbacks. -/
inductive Callback where
  | doSendHello
  | doSendAuth
deriving DecidableEq, Repr

/-- Bodies of the callbacks; the world is what has been written to `cout`.
Neither throws. -/
def call : Callback → OStream → OStream × Option Empty
  | Callback.doSendHello, cout => (cout.write "Sending hello...\n", none)
  | Callback.doSendAuth, cout => (cout.write "Sending auth...\n", none)

/-- Sequencing of two statements of `main` that may throw: an exception ends it. -/
def andThen (r : Added MyState MyEvent Callback)
    (next : StateMachine MyState MyEvent Callback → Added MyState MyEvent Callback) :
    Added MyState MyEvent Callback :=
  match r.raised with
  | none => next r.self
  | some ex => ⟨r.self, some ex⟩

/-- Lines 58-77 of `main`: construction and the five registrations. -/
def registrations : Added MyState MyEvent Callback :=
  let mysm : StateMachine MyState MyEvent Callback := StateMachine.new MyState.INIT
  andThen (mysm.AddTransition MyState.INIT MyState.SENT_HELLO MyEvent.EPSILON
    (some Callback.doSendHello)) fun mysm =>
  andThen (mysm.AddTransition MyState.SENT_HELLO MyState.SENT_AUTH MyEvent.RECV_OK
    (some Callback.doSendAuth)) fun mysm =>
  andThen (mysm.AddTransition MyState.SENT_AUTH MyState.READY MyEvent.RECV_OK none) fun mysm =>
  andThen (mysm.AddTransitionLoop MyState.SENT_HELLO MyEvent.TIMEOUT
    (some Callback.doSendHello)) fun mysm =>
  mysm.AddTransition MyState.SENT_AUTH MyState.SENT_HELLO MyEvent.TIMEOUT
    (some Callback.doSendHello)

/-- Lines 80-86 of `main`: the events sent, in order. -/
def events : List MyEvent :=
  [MyEvent.EPSILON, MyEvent.RECV_OK, MyEvent.EPSILON, MyEvent.TIMEOUT, MyEvent.TIMEOUT,
   MyEvent.RECV_OK, MyEvent.RECV_OK]

/-- The world when `main` starts: nothing written to `cout`, nothing invoked. -/
def start : World OStream Callback := ⟨OStream.empty, []⟩

/-- Lines 80-86 of `main`, run on the engine that `registrations` leaves. -/
def dispatched : Sent MyState MyEvent Callback OStream Empty :=
  StateMachine.SendEvents call registrations.self events start

/-- The program: `none` when an exception escapes (nothing catches it),
otherwise the engine and the world at `return 0`. -/
def main : Option (StateMachine MyState MyEvent Callback × World OStream Callback) :=
  match registrations.raised with
  | some _ => none
  | none =>
    match dispatched with
    | ⟨_, _, some _⟩ => none
    | ⟨mysm, o, none⟩ =>
      let cout := o.ext.write "Current state: "
      let cout := StreamInsert.insert cout mysm.GetState
      let cout := cout.write "\n"
      some (mysm, ⟨cout, o.trace⟩)

end test

end cppsm

/-! # Theorems -/

namespace cppsm

/-! ## Facts about the map operations -/

section MapFacts

variable {K V : Type} [DecidableEq K]

theorem Map.count_eq_zero_iff (m : Map K V) (k : K) :
    Map.count m k = 0 ↔ Map.find m k = none := by
  induction m with
  | nil => simp [Map.count, Map.find]
  | cons p rest ih =>
    obtain ⟨k', v⟩ := p
    by_cases hk : k' = k
    · simp [Map.count, Map.find, hk]
    · simp [Map.count, Map.find, hk, ih]

theorem Map.count_ne_zero_iff (m : Map K V) (k : K) :
    Map.count m k ≠ 0 ↔ (Map.find m k).isSome = true := by
  rw [Ne, Map.count_eq_zero_iff, ← Option.not_isSome_iff_eq_none, not_not]

theorem Map.subscript_of_find_some [Inhabited V] {m : Map K V} {k : K} {v : V}
    (h : Map.find m k = some v) : Map.subscript m k = (v, m) := by
  simp [Map.subscript, h]

theorem Map.subscript_of_find_none [Inhabited V] {m : Map K V} {k : K}
    (h : Map.find m k = none) : Map.subscript m k = (default, (k, default) :: m) := by
  simp [Map.subscript, h]

theorem Map.store_head (m : Map K V) (k : K) (v₀ v : V) :
    Map.store ((k, v₀) :: m) k v = (k, v) :: m := by
  simp [Map.store]

theorem Map.find_cons_self (m : Map K V) (k : K) (v : V) :
    Map.find ((k, v) :: m) k = some v := by
  simp [Map.find]

theorem Map.find_cons_of_ne (m : Map K V) {k k' : K} (v : V) (h : k' ≠ k) :
    Map.find ((k, v) :: m) k' = Map.find m k' := by
  have h' : ¬ k = k' := fun e => h e.symm
  simp [Map.find, h']

end MapFacts

/-! ## Facts about the engine -/

section EngineFacts

variable {S E Cb W X : Type} [DecidableEq S] [DecidableEq E]

/-- Registration under a key already present: the throwing branch. -/
theorem StateMachine.AddTransition_of_present [StreamInsert S] [StreamInsert E] [Inhabited S]
    (sm : StateMachine S E Cb) (fromState toState : S) (onEvent : E) (cb : Option Cb)
    (h : (sm.entry fromState onEvent).isSome = true) :
    sm.AddTransition fromState toState onEvent cb =
      ⟨sm, some (StateMachine.duplicateTransition fromState onEvent)⟩ := by
  have hc : Map.count sm.m_transitionMap (fromState, onEvent) ≠ 0 :=
    (Map.count_ne_zero_iff _ _).2 h
  simp [StateMachine.AddTransition, hc]

/-- Registration under an absent key: one node is added, nothing else changes. -/
theorem StateMachine.AddTransition_of_absent [StreamInsert S] [StreamInsert E] [Inhabited S]
    (sm : StateMachine S E Cb) (fromState toState : S) (onEvent : E) (cb : Option Cb)
    (h : sm.entry fromState onEvent = none) :
    sm.AddTransition fromState toState onEvent cb =
      ⟨⟨sm.m_currentState, ((fromState, onEvent), (toState, cb)) :: sm.m_transitionMap⟩,
        none⟩ := by
  have hc : Map.count sm.m_transitionMap (fromState, onEvent) = 0 :=
    (Map.count_eq_zero_iff _ _).2 h
  have hs := Map.subscript_of_find_none (V := S × Option Cb) h
  simp [StateMachine.AddTransition, hc, hs, Map.store_head]

/-- Whatever the outcome, the key of the call is in the table afterwards. -/
theorem StateMachine.entry_isSome_after_AddTransition
    [StreamInsert S] [StreamInsert E] [Inhabited S]
    (sm : StateMachine S E Cb) (fromState toState : S) (onEvent : E) (cb : Option Cb) :
    ((sm.AddTransition fromState toState onEvent cb).self.entry fromState onEvent).isSome
      = true := by
  cases h : sm.entry fromState onEvent with
  | none =>
    rw [StateMachine.AddTransition_of_absent sm fromState toState onEvent cb h]
    simp [StateMachine.entry, Map.find]
  | some v =>
    have h' : (sm.entry fromState onEvent).isSome = true := by simp [h]
    rw [StateMachine.AddTransition_of_present sm fromState toState onEvent cb h']
    exact h'

/-- Registration under an absent key does not throw. -/
theorem StateMachine.AddTransition_raised_eq_none_iff [StreamInsert S] [StreamInsert E] [Inhabited S]
    (sm : StateMachine S E Cb) (fromState toState : S) (onEvent : E) (cb : Option Cb) :
    (sm.AddTransition fromState toState onEvent cb).raised = none
      ↔ sm.entry fromState onEvent = none := by
  cases h : sm.entry fromState onEvent with
  | none =>
    rw [StateMachine.AddTransition_of_absent sm fromState toState onEvent cb h]
    simp
  | some v =>
    have h' : (sm.entry fromState onEvent).isSome = true := by simp [h]
    rw [StateMachine.AddTransition_of_present sm fromState toState onEvent cb h']
    simp

end EngineFacts

/-! ## Registration -/

section Registration

variable {S E Cb W X : Type} [DecidableEq S] [DecidableEq E]

/-- C1: `AddTransition(fromState, toState, onEvent, callback)` throws the
duplicate-transition exception exactly when the table already has an entry
under `(fromState, onEvent)`, and returns normally exactly when it has none;
whatever the first call did, a second call for the same pair throws, for every
destination and callback of the second call. -/
theorem AddTransition_raises_iff_present [StreamInsert S] [StreamInsert E] [Inhabited S]
    (sm : StateMachine S E Cb) (fromState toState : S) (onEvent : E) (callback : Option Cb) :
    ((sm.AddTransition fromState toState onEvent callback).raised
        = some (StateMachine.duplicateTransition fromState onEvent)
      ↔ (sm.entry fromState onEvent).isSome = true) ∧
    ((sm.AddTransition fromState toState onEvent callback).raised = none
      ↔ sm.entry fromState onEvent = none) ∧
    (∀ (toState2 : S) (callback2 : Option Cb),
      ((sm.AddTransition fromState toState onEvent callback).self.AddTransition
          fromState toState2 onEvent callback2).raised
        = some (StateMachine.duplicateTransition fromState onEvent)) := by
  refine ⟨?_, ?_, ?_⟩
  · cases h : sm.entry fromState onEvent with
    | none =>
      rw [StateMachine.AddTransition_of_absent sm fromState toState onEvent callback h]
      simp
    | some v =>
      have h' : (sm.entry fromState onEvent).isSome = true := by simp [h]
      rw [StateMachine.AddTransition_of_present sm fromState toState onEvent callback h']
      simp
  · exact StateMachine.AddTransition_raised_eq_none_iff sm fromState toState onEvent callback
  · intro toState2 callback2
    rw [StateMachine.AddTransition_of_present _ fromState toState2 onEvent callback2
      (StateMachine.entry_isSome_after_AddTransition sm fromState toState onEvent callback)]

/-- C2: when `AddTransition` throws, the engine it leaves is the engine it
found: the table is the same list of nodes, every key looks up to what it did
before, and every later dispatch goes as it would have gone before the call. -/
theorem AddTransition_raised_table_unchanged [StreamInsert S] [StreamInsert E] [Inhabited S]
    (sm : StateMachine S E Cb) (fromState toState : S) (onEvent : E) (callback : Option Cb)
    (h : (sm.AddTransition fromState toState onEvent callback).raised ≠ none) :
    (sm.AddTransition fromState toState onEvent callback).self.m_transitionMap
        = sm.m_transitionMap ∧
    (∀ (s : S) (e : E),
      (sm.AddTransition fromState toState onEvent callback).self.entry s e = sm.entry s e) ∧
    (∀ (call : Cb → W → W × Option X) (e : E) (o : World W Cb),
      StateMachine.SendEvent call (sm.AddTransition fromState toState onEvent callback).self e o
        = StateMachine.SendEvent call sm e o) := by
  have hself : (sm.AddTransition fromState toState onEvent callback).self = sm := by
    cases hk : sm.entry fromState onEvent with
    | none =>
      exact absurd ((StateMachine.AddTransition_raised_eq_none_iff sm fromState toState onEvent callback).2 hk) h
    | some v =>
      have h' : (sm.entry fromState onEvent).isSome = true := by simp [hk]
      rw [StateMachine.AddTransition_of_present sm fromState toState onEvent callback h']
  rw [hself]
  exact ⟨rfl, fun _ _ => rfl, fun _ _ _ => rfl⟩

/-- C3: when the table has no entry under `(fromState, onEvent)`,
`AddTransition` returns normally, the pair then looks up to
`(toState, callback)`, and every other key looks up to what it did before. -/
theorem AddTransition_absent_inserts [StreamInsert S] [StreamInsert E] [Inhabited S]
    (sm : StateMachine S E Cb) (fromState toState : S) (onEvent : E) (callback : Option Cb)
    (h : sm.entry fromState onEvent = none) :
    (sm.AddTransition fromState toState onEvent callback).raised = none ∧
    (sm.AddTransition fromState toState onEvent callback).self.entry fromState onEvent
        = some (toState, callback) ∧
    (∀ (s : S) (e : E), (s, e) ≠ (fromState, onEvent) →
      (sm.AddTransition fromState toState onEvent callback).self.entry s e = sm.entry s e) := by
  rw [StateMachine.AddTransition_of_absent sm fromState toState onEvent callback h]
  refine ⟨rfl, ?_, ?_⟩
  · exact Map.find_cons_self _ _ _
  · intro s e hne
    exact Map.find_cons_of_ne _ _ hne

end Registration

/-! ## Dispatch -/

section Dispatch

variable {S E Cb W X : Type} [DecidableEq S] [DecidableEq E]

/-- Dispatch when the current state has no entry for the event. -/
theorem StateMachine.SendEvent_of_absent [Inhabited S] (call : Cb → W → W × Option X)
    (sm : StateMachine S E Cb) (e : E) (o : World W Cb)
    (h : sm.entry sm.m_currentState e = none) :
    StateMachine.SendEvent call sm e o = ⟨sm, o, none⟩ := by
  have hc : Map.count sm.m_transitionMap (sm.m_currentState, e) = 0 :=
    (Map.count_eq_zero_iff _ _).2 h
  simp [StateMachine.SendEvent, hc]

/-- Dispatch when the entry has no callback. -/
theorem StateMachine.SendEvent_of_null [Inhabited S] (call : Cb → W → W × Option X)
    (sm : StateMachine S E Cb) (e : E) (o : World W Cb) (t : S)
    (h : sm.entry sm.m_currentState e = some (t, none)) :
    StateMachine.SendEvent call sm e o = ⟨⟨t, sm.m_transitionMap⟩, o, none⟩ := by
  have hc : Map.count sm.m_transitionMap (sm.m_currentState, e) ≠ 0 :=
    (Map.count_ne_zero_iff _ _).2 (by rw [show Map.find _ _ = _ from h]; rfl)
  have hs := Map.subscript_of_find_some h
  simp [StateMachine.SendEvent, hc, hs]

/-- Dispatch when the entry has a callback and the callback returns. -/
theorem StateMachine.SendEvent_of_returns [Inhabited S] (call : Cb → W → W × Option X)
    (sm : StateMachine S E Cb) (e : E) (o : World W Cb) (t : S) (cb : Cb)
    (h : sm.entry sm.m_currentState e = some (t, some cb))
    (hret : (call cb o.ext).2 = none) :
    StateMachine.SendEvent call sm e o
      = ⟨⟨t, sm.m_transitionMap⟩, ⟨(call cb o.ext).1, o.trace ++ [cb]⟩, none⟩ := by
  have hc : Map.count sm.m_transitionMap (sm.m_currentState, e) ≠ 0 :=
    (Map.count_ne_zero_iff _ _).2 (by rw [show Map.find _ _ = _ from h]; rfl)
  have hs := Map.subscript_of_find_some h
  simp [StateMachine.SendEvent, hc, hs, invoke, hret]

/-- Dispatch when the entry has a callback and the callback throws. -/
theorem StateMachine.SendEvent_of_throws [Inhabited S] (call : Cb → W → W × Option X)
    (sm : StateMachine S E Cb) (e : E) (o : World W Cb) (t : S) (cb : Cb) (x : X)
    (h : sm.entry sm.m_currentState e = some (t, some cb))
    (hx : (call cb o.ext).2 = some x) :
    StateMachine.SendEvent call sm e o
      = ⟨sm, ⟨(call cb o.ext).1, o.trace ++ [cb]⟩, some x⟩ := by
  have hc : Map.count sm.m_transitionMap (sm.m_currentState, e) ≠ 0 :=
    (Map.count_ne_zero_iff _ _).2 (by rw [show Map.find _ _ = _ from h]; rfl)
  have hs := Map.subscript_of_find_some h
  simp [StateMachine.SendEvent, hc, hs, invoke, hx]

/-- C4: in current state `s` with no entry under `(s, e)`, `SendEvent(e)`
leaves `GetState()` at `s`, invokes no callback (the trace is unchanged), and
indeed changes nothing at all and throws nothing. -/
theorem SendEvent_unmatched_is_noop [Inhabited S] (call : Cb → W → W × Option X)
    (sm : StateMachine S E Cb) (s : S) (e : E) (o : World W Cb)
    (hs : sm.GetState = s) (h : sm.entry s e = none) :
    (StateMachine.SendEvent call sm e o).self.GetState = s ∧
    (StateMachine.SendEvent call sm e o).world.trace = o.trace ∧
    StateMachine.SendEvent call sm e o = ⟨sm, o, none⟩ := by
  subst hs
  rw [StateMachine.SendEvent_of_absent call sm e o h]
  exact ⟨rfl, rfl, rfl⟩

/-- C9: in current state `s` with entry `(t, cb)` under `(s, e)`, when `cb`
throws, `SendEvent(e)` lets that exception escape and `GetState()` is still
`s`: `cb` has been run (it is on the trace) and the assignment of `t` has not
happened; the engine is as it was. -/
theorem SendEvent_callback_throws_state_unchanged [Inhabited S]
    (call : Cb → W → W × Option X)
    (sm : StateMachine S E Cb) (s t : S) (e : E) (cb : Cb) (x : X) (o : World W Cb)
    (hs : sm.GetState = s) (h : sm.entry s e = some (t, some cb))
    (hx : (call cb o.ext).2 = some x) :
    (StateMachine.SendEvent call sm e o).raised = some x ∧
    (StateMachine.SendEvent call sm e o).self.GetState = s ∧
    (StateMachine.SendEvent call sm e o).world.trace = o.trace ++ [cb] ∧
    (StateMachine.SendEvent call sm e o).self = sm := by
  subst hs
  rw [StateMachine.SendEvent_of_throws call sm e o t cb x h hx]
  exact ⟨rfl, rfl, rfl, rfl⟩

end Dispatch

/-! ## The loop overload and the frame of registration -/

section Overloads

variable {S E Cb W X : Type} [DecidableEq S] [DecidableEq E]

/-- C6: the three-argument `AddTransition(s, e, cb)` leaves exactly what the
four-argument `AddTransition(s, s, e, cb)` leaves (same exception or none,
same table, same current state); it throws after any registration under
`(s, e)` made with the four-argument form, a four-argument registration under
`(s, e)` throws after it, and every later run of `SendEvent` calls goes the
same way from either engine. -/
theorem AddTransitionLoop_same_as_AddTransition [StreamInsert S] [StreamInsert E] [Inhabited S]
    (sm : StateMachine S E Cb) (s : S) (e : E) (cb : Option Cb) :
    sm.AddTransitionLoop s e cb = sm.AddTransition s s e cb ∧
    (∀ (t : S) (cb0 : Option Cb),
      ((sm.AddTransition s t e cb0).self.AddTransitionLoop s e cb).raised
        = some (StateMachine.duplicateTransition s e)) ∧
    (∀ (t : S) (cb1 : Option Cb),
      ((sm.AddTransitionLoop s e cb).self.AddTransition s t e cb1).raised
        = some (StateMachine.duplicateTransition s e)) ∧
    (∀ (call : Cb → W → W × Option X) (es : List E) (o : World W Cb),
      StateMachine.SendEvents call (sm.AddTransitionLoop s e cb).self es o
        = StateMachine.SendEvents call (sm.AddTransition s s e cb).self es o) := by
  refine ⟨rfl, ?_, ?_, fun _ _ _ => rfl⟩
  · intro t cb0
    unfold StateMachine.AddTransitionLoop
    rw [StateMachine.AddTransition_of_present _ s s e cb
      (StateMachine.entry_isSome_after_AddTransition sm s t e cb0)]
  · intro t cb1
    unfold StateMachine.AddTransitionLoop
    rw [StateMachine.AddTransition_of_present _ s t e cb1
      (StateMachine.entry_isSome_after_AddTransition sm s s e cb)]

/-- C10: both overloads of `AddTransition`, whether they return or throw,
leave `GetState()` as it was; and a `SendEvent` after which `GetState()`
differs found an entry for the event under the current state. -/
theorem AddTransition_keeps_current_state [StreamInsert S] [StreamInsert E] [Inhabited S]
    (sm : StateMachine S E Cb) (fromState toState : S) (onEvent : E) (callback : Option Cb) :
    (sm.AddTransition fromState toState onEvent callback).self.GetState = sm.GetState ∧
    (sm.AddTransitionLoop fromState onEvent callback).self.GetState = sm.GetState ∧
    (∀ (call : Cb → W → W × Option X) (e : E) (o : World W Cb),
      (StateMachine.SendEvent call sm e o).self.GetState ≠ sm.GetState →
        (sm.entry sm.GetState e).isSome = true) := by
  have key : ∀ (f t : S) (cb : Option Cb),
      (sm.AddTransition f t onEvent cb).self.GetState = sm.GetState := by
    intro f t cb
    cases h : sm.entry f onEvent with
    | none => rw [StateMachine.AddTransition_of_absent sm f t onEvent cb h]; rfl
    | some v =>
      have h' : (sm.entry f onEvent).isSome = true := by simp [h]
      rw [StateMachine.AddTransition_of_present sm f t onEvent cb h']
  refine ⟨key _ _ _, key _ _ _, ?_⟩
  intro call e o hne
  cases h : sm.entry sm.GetState e with
  | none =>
    exact absurd (by rw [StateMachine.SendEvent_of_absent call sm e o h]) hne
  | some v => rfl

end Overloads

/-! ## The demonstration program -/

section Demonstration

open test

/-- C7: in `main` the five registrations all return normally, the seven
events leave `GetState()` at `READY` with no exception, and the third event
(`EPSILON`, sent in state `SENT_AUTH`) changes neither the engine nor the
world and invokes nothing. -/
theorem main_ends_in_READY :
    (∃ m1 m2 m3 m4 m5 : StateMachine MyState MyEvent Callback,
      (StateMachine.new MyState.INIT : StateMachine MyState MyEvent Callback).AddTransition
          MyState.INIT MyState.SENT_HELLO MyEvent.EPSILON (some Callback.doSendHello)
        = ⟨m1, none⟩ ∧
      m1.AddTransition MyState.SENT_HELLO MyState.SENT_AUTH MyEvent.RECV_OK
          (some Callback.doSendAuth) = ⟨m2, none⟩ ∧
      m2.AddTransition MyState.SENT_AUTH MyState.READY MyEvent.RECV_OK none = ⟨m3, none⟩ ∧
      m3.AddTransitionLoop MyState.SENT_HELLO MyEvent.TIMEOUT (some Callback.doSendHello)
        = ⟨m4, none⟩ ∧
      m4.AddTransition MyState.SENT_AUTH MyState.SENT_HELLO MyEvent.TIMEOUT
          (some Callback.doSendHello) = ⟨m5, none⟩ ∧
      registrations = ⟨m5, none⟩) ∧
    events = [MyEvent.EPSILON, MyEvent.RECV_OK, MyEvent.EPSILON, MyEvent.TIMEOUT,
      MyEvent.TIMEOUT, MyEvent.RECV_OK, MyEvent.RECV_OK] ∧
    dispatched.raised = none ∧
    dispatched.self.GetState = MyState.READY ∧
    (main.map fun r => r.1.GetState) = some MyState.READY ∧
    (StateMachine.SendEvents call registrations.self [MyEvent.EPSILON, MyEvent.RECV_OK]
      start).self.GetState = MyState.SENT_AUTH ∧
    StateMachine.SendEvent call
        (StateMachine.SendEvents call registrations.self [MyEvent.EPSILON, MyEvent.RECV_OK]
          start).self
        MyEvent.EPSILON
        (StateMachine.SendEvents call registrations.self [MyEvent.EPSILON, MyEvent.RECV_OK]
          start).world
      = StateMachine.SendEvents call registrations.self [MyEvent.EPSILON, MyEvent.RECV_OK]
          start := by
  refine ⟨⟨_, _, _, _, _, rfl, rfl, rfl, rfl, rfl, rfl⟩, rfl, ?_, ?_, ?_, ?_, ?_⟩
  · decide
  · decide
  · decide
  · decide
  · decide

/-- C8, as stated, fails: over the seven events of `main`, `doSendAuth` is not
invoked once. -/
theorem main_counts_three_and_one_fails :
    ¬ (List.count Callback.doSendHello dispatched.world.trace = 3 ∧
       List.count Callback.doSendAuth dispatched.world.trace = 1) := by
  decide

/-- C8, amended: after the five registrations of `main` have returned
normally, the seven events invoke `doSendHello` three times and `doSendAuth`
twice, in the order hello, auth, hello, hello, auth. -/
theorem main_counts_three_and_two :
    registrations.raised = none ∧
    events = [MyEvent.EPSILON, MyEvent.RECV_OK, MyEvent.EPSILON, MyEvent.TIMEOUT,
      MyEvent.TIMEOUT, MyEvent.RECV_OK, MyEvent.RECV_OK] ∧
    dispatched.world.trace = [Callback.doSendHello, Callback.doSendAuth,
      Callback.doSendHello, Callback.doSendHello, Callback.doSendAuth] ∧
    List.count Callback.doSendHello dispatched.world.trace = 3 ∧
    List.count Callback.doSendAuth dispatched.world.trace = 2 := by
  refine ⟨?_, rfl, ?_, ?_, ?_⟩
  · decide
  · decide
  · decide
  · decide

end Demonstration

/-! ## Instances on the engine of the demonstration -/

section Instances

open test

/-- A second registration under `(INIT, EPSILON)` on the engine of `main` throws and leaves the table as it was. -/
theorem AddTransition_raised_table_unchanged_witness :
    (registrations.self.AddTransition MyState.INIT MyState.READY MyEvent.EPSILON none).raised
        ≠ none ∧
    ((registrations.self.AddTransition MyState.INIT MyState.READY MyEvent.EPSILON
        none).self.m_transitionMap = registrations.self.m_transitionMap ∧
     (∀ (s : MyState) (e : MyEvent),
        (registrations.self.AddTransition MyState.INIT MyState.READY MyEvent.EPSILON
          none).self.entry s e = registrations.self.entry s e) ∧
     (∀ (call : Callback → OStream → OStream × Option Empty) (e : MyEvent)
        (o : World OStream Callback),
        StateMachine.SendEvent call
            (registrations.self.AddTransition MyState.INIT MyState.READY MyEvent.EPSILON
              none).self e o
          = StateMachine.SendEvent call registrations.self e o)) :=
  ⟨by decide,
   AddTransition_raised_table_unchanged registrations.self MyState.INIT MyState.READY
     MyEvent.EPSILON none (by decide)⟩

/-- The engine of `main` has nothing under `(READY, TIMEOUT)`; registering there adds that entry only. -/
theorem AddTransition_absent_inserts_witness :
    registrations.self.entry MyState.READY MyEvent.TIMEOUT = none ∧
    ((registrations.self.AddTransition MyState.READY MyState.INIT MyEvent.TIMEOUT
        (some Callback.doSendAuth)).raised = none ∧
     (registrations.self.AddTransition MyState.READY MyState.INIT MyEvent.TIMEOUT
        (some Callback.doSendAuth)).self.entry MyState.READY MyEvent.TIMEOUT
        = some (MyState.INIT, some Callback.doSendAuth) ∧
     (∀ (s : MyState) (e : MyEvent), (s, e) ≠ (MyState.READY, MyEvent.TIMEOUT) →
        (registrations.self.AddTransition MyState.READY MyState.INIT MyEvent.TIMEOUT
          (some Callback.doSendAuth)).self.entry s e = registrations.self.entry s e)) :=
  ⟨by decide,
   AddTransition_absent_inserts registrations.self MyState.READY MyState.INIT
     MyEvent.TIMEOUT (some Callback.doSendAuth) (by decide)⟩

/-- The engine of `main`, in `INIT`, has nothing under `(INIT, RECV_OK)`; sending `RECV_OK` changes nothing. -/
theorem SendEvent_unmatched_is_noop_witness :
    registrations.self.GetState = MyState.INIT ∧
    registrations.self.entry MyState.INIT MyEvent.RECV_OK = none ∧
    ((StateMachine.SendEvent call registrations.self MyEvent.RECV_OK start).self.GetState
        = MyState.INIT ∧
     (StateMachine.SendEvent call registrations.self MyEvent.RECV_OK start).world.trace
        = start.trace ∧
     StateMachine.SendEvent call registrations.self MyEvent.RECV_OK start
        = ⟨registrations.self, start, none⟩) :=
  ⟨by decide, by decide,
   SendEvent_unmatched_is_noop call registrations.self MyState.INIT MyEvent.RECV_OK start
     (by decide) (by decide)⟩

/-- The engine of `main` with callbacks that throw `7`: `EPSILON` in `INIT` lets `7` escape and the state stays `INIT`. -/
theorem SendEvent_callback_throws_state_unchanged_witness :
    registrations.self.GetState = MyState.INIT ∧
    registrations.self.entry MyState.INIT MyEvent.EPSILON
      = some (MyState.SENT_HELLO, some Callback.doSendHello) ∧
    ((fun (_ : Callback) (w : OStream) => (w, some 7)) Callback.doSendHello start.ext).2
      = some 7 ∧
    ((StateMachine.SendEvent (fun (_ : Callback) (w : OStream) => (w, some 7))
        registrations.self MyEvent.EPSILON start).raised = some 7 ∧
     (StateMachine.SendEvent (fun (_ : Callback) (w : OStream) => (w, some 7))
        registrations.self MyEvent.EPSILON start).self.GetState = MyState.INIT ∧
     (StateMachine.SendEvent (fun (_ : Callback) (w : OStream) => (w, some 7))
        registrations.self MyEvent.EPSILON start).world.trace
        = start.trace ++ [Callback.doSendHello] ∧
     (StateMachine.SendEvent (fun (_ : Callback) (w : OStream) => (w, some 7))
        registrations.self MyEvent.EPSILON start).self = registrations.self) :=
  ⟨by decide, by decide, rfl,
   SendEvent_callback_throws_state_unchanged (fun (_ : Callback) (w : OStream) => (w, some 7))
     registrations.self MyState.INIT MyState.SENT_HELLO MyEvent.EPSILON Callback.doSendHello 7
     start (by decide) (by decide) rfl⟩

/-- On the engine of `main`, `EPSILON` changes the state, and `(INIT, EPSILON)` is indeed in the table. -/
theorem AddTransition_keeps_current_state_witness :
    (StateMachine.SendEvent call registrations.self MyEvent.EPSILON start).self.GetState
      ≠ registrations.self.GetState ∧
    (registrations.self.entry registrations.self.GetState MyEvent.EPSILON).isSome = true :=
  ⟨by decide,
   (AddTransition_keeps_current_state registrations.self MyState.INIT MyState.READY
      MyEvent.EPSILON none).2.2 call MyEvent.EPSILON start (by decide)⟩

end Instances

/-! ## Frame facts shared by the later results -/

section Frame

variable {K V : Type} [DecidableEq K]

theorem Map.find_eq_none_iff (m : Map K V) (k : K) :
    Map.find m k = none ↔ k ∉ m.map Prod.fst := by
  induction m with
  | nil => simp [Map.find]
  | cons p rest ih =>
    obtain ⟨k', v⟩ := p
    by_cases hk : k' = k
    · simp [Map.find, hk]
    · have hk' : ¬ k = k' := fun h => hk h.symm
      simp [Map.find, hk, hk', ih]

variable {S E Cb W X : Type} [DecidableEq S] [DecidableEq E]

/-- Registration never writes the current state. -/
theorem StateMachine.AddTransition_state [StreamInsert S] [StreamInsert E] [Inhabited S]
    (sm : StateMachine S E Cb) (f t : S) (e : E) (cb : Option Cb) :
    (sm.AddTransition f t e cb).self.m_currentState = sm.m_currentState := by
  cases h : sm.entry f e with
  | none => rw [StateMachine.AddTransition_of_absent sm f t e cb h]
  | some v =>
    have h' : (sm.entry f e).isSome = true := by simp [h]
    rw [StateMachine.AddTransition_of_present sm f t e cb h']

/-- The exception of a registration, as a function of the entry under its key. -/
theorem StateMachine.AddTransition_raised [StreamInsert S] [StreamInsert E] [Inhabited S]
    (sm : StateMachine S E Cb) (f t : S) (e : E) (cb : Option Cb) :
    (sm.AddTransition f t e cb).raised
      = if (sm.entry f e).isSome = true then some (StateMachine.duplicateTransition f e)
        else none := by
  cases h : sm.entry f e with
  | none => rw [StateMachine.AddTransition_of_absent sm f t e cb h]; simp
  | some v =>
    have h' : (sm.entry f e).isSome = true := by simp [h]
    rw [StateMachine.AddTransition_of_present sm f t e cb h']; simp

/-- Every lookup after a registration, returned or thrown. -/
theorem StateMachine.entry_AddTransition [StreamInsert S] [StreamInsert E] [Inhabited S]
    (sm : StateMachine S E Cb) (f t : S) (e : E) (cb : Option Cb) (s : S) (e' : E) :
    (sm.AddTransition f t e cb).self.entry s e'
      = if (s, e') = (f, e) then some ((sm.entry f e).getD (t, cb)) else sm.entry s e' := by
  cases h : sm.entry f e with
  | none =>
    rw [StateMachine.AddTransition_of_absent sm f t e cb h]
    by_cases hk : (s, e') = (f, e)
    · rw [if_pos hk]
      cases hk
      exact Map.find_cons_self _ _ _
    · rw [if_neg hk]
      exact Map.find_cons_of_ne _ _ hk
  | some v =>
    have h' : (sm.entry f e).isSome = true := by simp [h]
    rw [StateMachine.AddTransition_of_present sm f t e cb h']
    by_cases hk : (s, e') = (f, e)
    · rw [if_pos hk]
      cases hk
      simpa using h
    · rw [if_neg hk]

/-- An entry in the table is still there, unchanged, after a registration. -/
theorem StateMachine.entry_AddTransition_of_some [StreamInsert S] [StreamInsert E] [Inhabited S]
    (sm : StateMachine S E Cb) (f t : S) (e : E) (cb : Option Cb) (s : S) (e' : E)
    (v : S × Option Cb) (h : sm.entry s e' = some v) :
    (sm.AddTransition f t e cb).self.entry s e' = some v := by
  rw [StateMachine.entry_AddTransition]
  by_cases hk : (s, e') = (f, e)
  · rw [if_pos hk]
    cases hk
    simp [h]
  · rw [if_neg hk, h]

/-- Dispatch never writes the table. -/
theorem StateMachine.SendEvent_table [Inhabited S] (call : Cb → W → W × Option X)
    (sm : StateMachine S E Cb) (e : E) (o : World W Cb) :
    (StateMachine.SendEvent call sm e o).self.m_transitionMap = sm.m_transitionMap := by
  cases h : sm.entry sm.m_currentState e with
  | none => rw [StateMachine.SendEvent_of_absent call sm e o h]
  | some a =>
    obtain ⟨t, f⟩ := a
    cases f with
    | none => rw [StateMachine.SendEvent_of_null call sm e o t h]
    | some cb =>
      cases hx : (call cb o.ext).2 with
      | none => rw [StateMachine.SendEvent_of_returns call sm e o t cb h hx]
      | some x => rw [StateMachine.SendEvent_of_throws call sm e o t cb x h hx]

/-- The current state after a dispatch is the old one or the target of the
entry found under the old one. -/
theorem StateMachine.SendEvent_state_cases [Inhabited S] (call : Cb → W → W × Option X)
    (sm : StateMachine S E Cb) (e : E) (o : World W Cb) :
    (StateMachine.SendEvent call sm e o).self.m_currentState = sm.m_currentState ∨
    ∃ cb : Option Cb, sm.entry sm.m_currentState e
      = some ((StateMachine.SendEvent call sm e o).self.m_currentState, cb) := by
  cases h : sm.entry sm.m_currentState e with
  | none => rw [StateMachine.SendEvent_of_absent call sm e o h]; exact Or.inl rfl
  | some a =>
    obtain ⟨t, f⟩ := a
    cases f with
    | none =>
      rw [StateMachine.SendEvent_of_null call sm e o t h]; exact Or.inr ⟨none, rfl⟩
    | some cb =>
      cases hx : (call cb o.ext).2 with
      | none =>
        rw [StateMachine.SendEvent_of_returns call sm e o t cb h hx]
        exact Or.inr ⟨some cb, rfl⟩
      | some x =>
        rw [StateMachine.SendEvent_of_throws call sm e o t cb x h hx]; exact Or.inl rfl

/-- Dispatch reads the engine only through the current state and the lookups. -/
theorem StateMachine.SendEvent_congr [Inhabited S] (call : Cb → W → W × Option X)
    (sm1 sm2 : StateMachine S E Cb) (e : E) (o : World W Cb)
    (hst : sm1.m_currentState = sm2.m_currentState)
    (htab : ∀ (s : S) (e : E), sm1.entry s e = sm2.entry s e) :
    (StateMachine.SendEvent call sm1 e o).self.m_currentState
        = (StateMachine.SendEvent call sm2 e o).self.m_currentState ∧
    (StateMachine.SendEvent call sm1 e o).world = (StateMachine.SendEvent call sm2 e o).world ∧
    (StateMachine.SendEvent call sm1 e o).raised
        = (StateMachine.SendEvent call sm2 e o).raised := by
  have key : sm2.entry sm2.m_currentState e = sm1.entry sm1.m_currentState e := by
    rw [htab, hst]
  cases h : sm1.entry sm1.m_currentState e with
  | none =>
    rw [StateMachine.SendEvent_of_absent call sm1 e o h,
      StateMachine.SendEvent_of_absent call sm2 e o (key.trans h)]
    exact ⟨hst, rfl, rfl⟩
  | some a =>
    obtain ⟨t, f⟩ := a
    cases f with
    | none =>
      rw [StateMachine.SendEvent_of_null call sm1 e o t h,
        StateMachine.SendEvent_of_null call sm2 e o t (key.trans h)]
      exact ⟨rfl, rfl, rfl⟩
    | some cb =>
      cases hx : (call cb o.ext).2 with
      | none =>
        rw [StateMachine.SendEvent_of_returns call sm1 e o t cb h hx,
          StateMachine.SendEvent_of_returns call sm2 e o t cb (key.trans h) hx]
        exact ⟨rfl, rfl, rfl⟩
      | some x =>
        rw [StateMachine.SendEvent_of_throws call sm1 e o t cb x h hx,
          StateMachine.SendEvent_of_throws call sm2 e o t cb x (key.trans h) hx]
        exact ⟨hst, rfl, rfl⟩

/-- A run goes on after a dispatch that returned. -/
theorem StateMachine.SendEvents_cons_of_none [Inhabited S] (call : Cb → W → W × Option X)
    (sm : StateMachine S E Cb) (e : E) (es : List E) (o : World W Cb)
    (h : (StateMachine.SendEvent call sm e o).raised = none) :
    StateMachine.SendEvents call sm (e :: es) o
      = StateMachine.SendEvents call (StateMachine.SendEvent call sm e o).self es
          (StateMachine.SendEvent call sm e o).world := by
  rw [StateMachine.SendEvents]
  generalize StateMachine.SendEvent call sm e o = r at h
  obtain ⟨sm', o', x⟩ := r
  cases h
  rfl

/-- A run ends at a dispatch that threw. -/
theorem StateMachine.SendEvents_cons_of_some [Inhabited S] (call : Cb → W → W × Option X)
    (sm : StateMachine S E Cb) (e : E) (es : List E) (o : World W Cb) (x : X)
    (h : (StateMachine.SendEvent call sm e o).raised = some x) :
    StateMachine.SendEvents call sm (e :: es) o = StateMachine.SendEvent call sm e o := by
  rw [StateMachine.SendEvents]
  generalize StateMachine.SendEvent call sm e o = r at h
  obtain ⟨sm', o', x'⟩ := r
  cases h
  rfl

end Frame

/-! ## The text of the exception -/

section Message

variable {S E : Type}

/-- A string without NUL is its own C string. -/
theorem c_str_of_clean (s : String) (h : ∀ c ∈ s.data, c ≠ Char.ofNat 0) : c_str s = s := by
  unfold c_str
  have hall : s.data.takeWhile (fun c => decide (c ≠ Char.ofNat 0)) = s.data := by
    rw [List.takeWhile_eq_self_iff]
    intro c hc
    simpa using h c hc
  rw [hall]

/-- The message with stream operators that write a text for each value. -/
theorem StateMachine.duplicateTransition_what_of_text [StreamInsert S] [StreamInsert E]
    (showS : S → String) (showE : E → String)
    (hS : ∀ (os : OStream) (s : S), StreamInsert.insert os s = os.write (showS s))
    (hE : ∀ (os : OStream) (e : E), StreamInsert.insert os e = os.write (showE e))
    (f : S) (e : E) :
    (StateMachine.duplicateTransition f e).what
      = c_str ("Duplicate transition from state " ++ showS f ++ " on event " ++ showE e) := by
  simp [StateMachine.duplicateTransition, StateMachineException.what,
    StateMachineException.new, hS, hE, OStream.write, OStream.empty, OStream.str,
    String.append_assoc]

/-- The message when moreover the two texts have no NUL. -/
theorem StateMachine.duplicateTransition_what_of_clean_text [StreamInsert S] [StreamInsert E]
    (showS : S → String) (showE : E → String)
    (hS : ∀ (os : OStream) (s : S), StreamInsert.insert os s = os.write (showS s))
    (hE : ∀ (os : OStream) (e : E), StreamInsert.insert os e = os.write (showE e))
    (f : S) (e : E)
    (hnS : ∀ c ∈ (showS f).data, c ≠ Char.ofNat 0)
    (hnE : ∀ c ∈ (showE e).data, c ≠ Char.ofNat 0) :
    (StateMachine.duplicateTransition f e).what
      = "Duplicate transition from state " ++ showS f ++ " on event " ++ showE e := by
  rw [StateMachine.duplicateTransition_what_of_text showS showE hS hE]
  apply c_str_of_clean
  intro c hc
  simp only [String.data_append, List.mem_append] at hc
  rcases hc with ((hc | hc) | hc) | hc
  · have hlit : ∀ c ∈ "Duplicate transition from state ".data, c ≠ Char.ofNat 0 := by decide
    exact hlit c hc
  · exact hnS c hc
  · have hlit : ∀ c ∈ " on event ".data, c ≠ Char.ofNat 0 := by decide
    exact hlit c hc
  · exact hnE c hc

end Message

/-! ## Runs of events -/

section Runs

variable {S E Cb W X W2 X2 : Type} [DecidableEq S] [DecidableEq E]

/-- A run of dispatches never writes the table. -/
theorem StateMachine.SendEvents_table [Inhabited S] (call : Cb → W → W × Option X)
    (es : List E) : ∀ (sm : StateMachine S E Cb) (o : World W Cb),
    (StateMachine.SendEvents call sm es o).self.m_transitionMap = sm.m_transitionMap := by
  induction es with
  | nil => intro sm o; rfl
  | cons e es ih =>
    intro sm o
    cases hx : (StateMachine.SendEvent call sm e o).raised with
    | none =>
      rw [StateMachine.SendEvents_cons_of_none call sm e es o hx, ih,
        StateMachine.SendEvent_table]
    | some x =>
      rw [StateMachine.SendEvents_cons_of_some call sm e es o x hx,
        StateMachine.SendEvent_table]

/-- With an empty table every run leaves everything as it was. -/
theorem StateMachine.SendEvents_of_empty [Inhabited S] (call : Cb → W → W × Option X)
    (es : List E) (sm : StateMachine S E Cb) (o : World W Cb)
    (h : sm.m_transitionMap = []) :
    StateMachine.SendEvents call sm es o = ⟨sm, o, none⟩ := by
  induction es with
  | nil => rfl
  | cons e es ih =>
    have habs : sm.entry sm.m_currentState e = none := by
      simp [StateMachine.entry, h, Map.find]
    have hone := StateMachine.SendEvent_of_absent call sm e o habs
    rw [StateMachine.SendEvents_cons_of_none call sm e es o (by rw [hone]), hone]
    exact ih

/-- A run reads the engine only through the current state and the lookups. -/
theorem StateMachine.SendEvents_congr [Inhabited S] (call : Cb → W → W × Option X)
    (es : List E) : ∀ (sm1 sm2 : StateMachine S E Cb) (o : World W Cb),
    sm1.m_currentState = sm2.m_currentState →
    (∀ (s : S) (e : E), sm1.entry s e = sm2.entry s e) →
    (StateMachine.SendEvents call sm1 es o).self.m_currentState
        = (StateMachine.SendEvents call sm2 es o).self.m_currentState ∧
    (StateMachine.SendEvents call sm1 es o).world
        = (StateMachine.SendEvents call sm2 es o).world ∧
    (StateMachine.SendEvents call sm1 es o).raised
        = (StateMachine.SendEvents call sm2 es o).raised := by
  induction es with
  | nil => intro sm1 sm2 o hst _; exact ⟨hst, rfl, rfl⟩
  | cons e es ih =>
    intro sm1 sm2 o hst htab
    obtain ⟨h1, h2, h3⟩ := StateMachine.SendEvent_congr call sm1 sm2 e o hst htab
    cases hx : (StateMachine.SendEvent call sm1 e o).raised with
    | none =>
      rw [StateMachine.SendEvents_cons_of_none call sm1 e es o hx,
        StateMachine.SendEvents_cons_of_none call sm2 e es o (h3 ▸ hx), ← h2]
      apply ih _ _ _ h1
      intro s e'
      unfold StateMachine.entry
      rw [StateMachine.SendEvent_table, StateMachine.SendEvent_table]
      exact htab s e'
    | some x =>
      rw [StateMachine.SendEvents_cons_of_some call sm1 e es o x hx,
        StateMachine.SendEvents_cons_of_some call sm2 e es o x (h3 ▸ hx)]
      exact ⟨h1, h2, h3⟩

/-- With callbacks that return, the state and the trace after a dispatch do
not depend on what the callbacks do to the world. -/
theorem StateMachine.SendEvent_returning_congr [Inhabited S]
    (call1 : Cb → W → W × Option X) (call2 : Cb → W2 → W2 × Option X2)
    (hr1 : ∀ (c : Cb) (w : W), (call1 c w).2 = none)
    (hr2 : ∀ (c : Cb) (w : W2), (call2 c w).2 = none)
    (sm1 sm2 : StateMachine S E Cb) (e : E) (o1 : World W Cb) (o2 : World W2 Cb)
    (htr : o1.trace = o2.trace)
    (hst : sm1.m_currentState = sm2.m_currentState)
    (htab : ∀ (s : S) (e : E), sm1.entry s e = sm2.entry s e) :
    (StateMachine.SendEvent call1 sm1 e o1).self.m_currentState
        = (StateMachine.SendEvent call2 sm2 e o2).self.m_currentState ∧
    (StateMachine.SendEvent call1 sm1 e o1).world.trace
        = (StateMachine.SendEvent call2 sm2 e o2).world.trace ∧
    (StateMachine.SendEvent call1 sm1 e o1).raised = none ∧
    (StateMachine.SendEvent call2 sm2 e o2).raised = none := by
  have key : sm2.entry sm2.m_currentState e = sm1.entry sm1.m_currentState e := by
    rw [htab, hst]
  cases h : sm1.entry sm1.m_currentState e with
  | none =>
    rw [StateMachine.SendEvent_of_absent call1 sm1 e o1 h,
      StateMachine.SendEvent_of_absent call2 sm2 e o2 (key.trans h)]
    exact ⟨hst, htr, rfl, rfl⟩
  | some a =>
    obtain ⟨t, f⟩ := a
    cases f with
    | none =>
      rw [StateMachine.SendEvent_of_null call1 sm1 e o1 t h,
        StateMachine.SendEvent_of_null call2 sm2 e o2 t (key.trans h)]
      exact ⟨rfl, htr, rfl, rfl⟩
    | some cb =>
      rw [StateMachine.SendEvent_of_returns call1 sm1 e o1 t cb h (hr1 _ _),
        StateMachine.SendEvent_of_returns call2 sm2 e o2 t cb (key.trans h) (hr2 _ _)]
      exact ⟨rfl, by rw [htr], rfl, rfl⟩

/-- With callbacks that return, the state and the trace after a run do not
depend on what the callbacks do to the world. -/
theorem StateMachine.SendEvents_returning_congr [Inhabited S]
    (call1 : Cb → W → W × Option X) (call2 : Cb → W2 → W2 × Option X2)
    (hr1 : ∀ (c : Cb) (w : W), (call1 c w).2 = none)
    (hr2 : ∀ (c : Cb) (w : W2), (call2 c w).2 = none)
    (es : List E) : ∀ (sm1 sm2 : StateMachine S E Cb) (o1 : World W Cb) (o2 : World W2 Cb),
    o1.trace = o2.trace →
    sm1.m_currentState = sm2.m_currentState →
    (∀ (s : S) (e : E), sm1.entry s e = sm2.entry s e) →
    (StateMachine.SendEvents call1 sm1 es o1).self.m_currentState
        = (StateMachine.SendEvents call2 sm2 es o2).self.m_currentState ∧
    (StateMachine.SendEvents call1 sm1 es o1).world.trace
        = (StateMachine.SendEvents call2 sm2 es o2).world.trace := by
  induction es with
  | nil => intro sm1 sm2 o1 o2 htr hst _; exact ⟨hst, htr⟩
  | cons e es ih =>
    intro sm1 sm2 o1 o2 htr hst htab
    obtain ⟨h1, h2, h3, h4⟩ :=
      StateMachine.SendEvent_returning_congr call1 call2 hr1 hr2 sm1 sm2 e o1 o2 htr hst htab
    rw [StateMachine.SendEvents_cons_of_none call1 sm1 e es o1 h3,
      StateMachine.SendEvents_cons_of_none call2 sm2 e es o2 h4]
    apply ih _ _ _ _ h2 h1
    intro s e'
    unfold StateMachine.entry
    rw [StateMachine.SendEvent_table, StateMachine.SendEvent_table]
    exact htab s e'

end Runs

/-! ## Construction, replay, the exception, null callbacks, the table under dispatch -/

section Behaviour

variable {S E Cb W X W2 X2 : Type} [DecidableEq S] [DecidableEq E]

/-- C11: a freshly constructed `StateMachine(s0)` has `GetState() = s0` and an
empty table (every lookup is absent); any sequence of events sent to it leaves
`GetState()` at `s0`, invokes nothing, throws nothing and changes nothing. -/
theorem new_engine_ignores_every_event [Inhabited S] (s0 : S) :
    (StateMachine.new s0 : StateMachine S E Cb).GetState = s0 ∧
    (StateMachine.new s0 : StateMachine S E Cb).m_transitionMap = [] ∧
    (∀ (s : S) (e : E), (StateMachine.new s0 : StateMachine S E Cb).entry s e = none) ∧
    (∀ (call : Cb → W → W × Option X) (es : List E) (o : World W Cb),
      (StateMachine.SendEvents call (StateMachine.new s0 : StateMachine S E Cb) es
        o).self.GetState = s0 ∧
      (StateMachine.SendEvents call (StateMachine.new s0 : StateMachine S E Cb) es
        o).world.trace = o.trace ∧
      StateMachine.SendEvents call (StateMachine.new s0 : StateMachine S E Cb) es o
        = ⟨StateMachine.new s0, o, none⟩) := by
  refine ⟨rfl, rfl, fun _ _ => rfl, ?_⟩
  intro call es o
  rw [StateMachine.SendEvents_of_empty call es (StateMachine.new s0) o rfl]
  exact ⟨rfl, rfl, rfl⟩

/-- C12: two engines in the same current state whose tables give the same
lookups, sent the same events with the same callbacks from the same world, end
in the same state, with the same world and trace and the same exception, if
any; and with callbacks that return, the final state and the trace are the
same whatever the callbacks do and whatever world they start from. -/
theorem SendEvents_replay_deterministic [Inhabited S]
    (sm1 sm2 : StateMachine S E Cb)
    (hst : sm1.GetState = sm2.GetState)
    (htab : ∀ (s : S) (e : E), sm1.entry s e = sm2.entry s e) :
    (∀ (call : Cb → W → W × Option X) (es : List E) (o : World W Cb),
      (StateMachine.SendEvents call sm1 es o).self.GetState
          = (StateMachine.SendEvents call sm2 es o).self.GetState ∧
      (StateMachine.SendEvents call sm1 es o).world
          = (StateMachine.SendEvents call sm2 es o).world ∧
      (StateMachine.SendEvents call sm1 es o).raised
          = (StateMachine.SendEvents call sm2 es o).raised) ∧
    (∀ (call1 : Cb → W → W × Option X) (call2 : Cb → W2 → W2 × Option X2)
       (es : List E) (o1 : World W Cb) (o2 : World W2 Cb),
      (∀ (c : Cb) (w : W), (call1 c w).2 = none) →
      (∀ (c : Cb) (w : W2), (call2 c w).2 = none) →
      o1.trace = o2.trace →
      (StateMachine.SendEvents call1 sm1 es o1).self.GetState
          = (StateMachine.SendEvents call2 sm2 es o2).self.GetState ∧
      (StateMachine.SendEvents call1 sm1 es o1).world.trace
          = (StateMachine.SendEvents call2 sm2 es o2).world.trace) := by
  refine ⟨?_, ?_⟩
  · intro call es o
    exact StateMachine.SendEvents_congr call es sm1 sm2 o hst htab
  · intro call1 call2 es o1 o2 hr1 hr2 htr
    exact StateMachine.SendEvents_returning_congr call1 call2 hr1 hr2 es sm1 sm2 o1 o2
      htr hst htab

/-- C14: in current state `s` with an entry under `(s, e)` whose target is `t`
and whose callback is null, `SendEvent(e)` invokes nothing (trace and world
are unchanged), throws nothing, and `GetState()` is `t` afterwards. -/
theorem SendEvent_null_callback_still_moves [Inhabited S] (call : Cb → W → W × Option X)
    (sm : StateMachine S E Cb) (s t : S) (e : E) (o : World W Cb)
    (hs : sm.GetState = s) (h : sm.entry s e = some (t, none)) :
    (StateMachine.SendEvent call sm e o).self.GetState = t ∧
    (StateMachine.SendEvent call sm e o).world.trace = o.trace ∧
    (StateMachine.SendEvent call sm e o).world = o ∧
    (StateMachine.SendEvent call sm e o).raised = none := by
  subst hs
  rw [StateMachine.SendEvent_of_null call sm e o t h]
  exact ⟨rfl, rfl, rfl, rfl⟩

/-- C15: `SendEvent(e)`, matched or not, returning or throwing, leaves the
table as it was, so every key looks up to what it did before; and where the
subscript operator is reached (the count was not zero) it inserts nothing. -/
theorem SendEvent_keeps_table [Inhabited S] (call : Cb → W → W × Option X)
    (sm : StateMachine S E Cb) (e : E) (o : World W Cb) :
    (StateMachine.SendEvent call sm e o).self.m_transitionMap = sm.m_transitionMap ∧
    (∀ (s : S) (e2 : E), (StateMachine.SendEvent call sm e o).self.entry s e2 = sm.entry s e2) ∧
    (Map.count sm.m_transitionMap (sm.m_currentState, e) ≠ 0 →
      (Map.subscript sm.m_transitionMap (sm.m_currentState, e)).2 = sm.m_transitionMap) := by
  refine ⟨StateMachine.SendEvent_table call sm e o, ?_, ?_⟩
  · intro s e2
    unfold StateMachine.entry
    rw [StateMachine.SendEvent_table]
  · intro hc
    have hsome := (Map.count_ne_zero_iff _ _).1 hc
    cases hf : Map.find sm.m_transitionMap (sm.m_currentState, e) with
    | none => rw [hf] at hsome; cases hsome
    | some v => rw [Map.subscript_of_find_some hf]

end Behaviour

/-! ## Invariants over arbitrary sequences of calls -/

section Callers

variable {S E Cb W X : Type} [DecidableEq S] [DecidableEq E]

/-- A call keeps every entry the table has. -/
theorem Op.perform_entry [StreamInsert S] [StreamInsert E] [Inhabited S]
    (call : Cb → W → W × Option X) (c : StateMachine S E Cb × World W Cb) (op : Op S E Cb)
    (s : S) (e : E) (v : S × Option Cb) (h : c.1.entry s e = some v) :
    (Op.perform call c op).1.entry s e = some v := by
  cases op with
  | add f t e' cb => exact StateMachine.entry_AddTransition_of_some c.1 f t e' cb s e v h
  | addLoop f e' cb => exact StateMachine.entry_AddTransition_of_some c.1 f f e' cb s e v h
  | send ev =>
    show Map.find (StateMachine.SendEvent call c.1 ev c.2).self.m_transitionMap (s, e) = some v
    rw [StateMachine.SendEvent_table]
    exact h

/-- A sequence of calls keeps every entry the table has. -/
theorem Op.performAll_entry [StreamInsert S] [StreamInsert E] [Inhabited S]
    (call : Cb → W → W × Option X) (ops : List (Op S E Cb)) (s : S) (e : E)
    (v : S × Option Cb) : ∀ (c : StateMachine S E Cb × World W Cb),
    c.1.entry s e = some v → (Op.performAll call c ops).1.entry s e = some v := by
  induction ops with
  | nil => intro c h; exact h
  | cons op ops ih =>
    intro c h
    exact ih (Op.perform call c op) (Op.perform_entry call c op s e v h)

/-- Calls made one sequence after another. -/
theorem Op.performAll_append [StreamInsert S] [StreamInsert E] [Inhabited S]
    (call : Cb → W → W × Option X) (c : StateMachine S E Cb × World W Cb)
    (pre post : List (Op S E Cb)) :
    Op.performAll call c (pre ++ post) = Op.performAll call (Op.performAll call c pre) post := by
  simp [Op.performAll, List.foldl_append]

/-- A registration keeps the keys of the nodes distinct. -/
theorem StateMachine.AddTransition_nodup [StreamInsert S] [StreamInsert E] [Inhabited S]
    (sm : StateMachine S E Cb) (f t : S) (e : E) (cb : Option Cb)
    (h : (sm.m_transitionMap.map Prod.fst).Nodup) :
    ((sm.AddTransition f t e cb).self.m_transitionMap.map Prod.fst).Nodup := by
  cases hk : sm.entry f e with
  | none =>
    rw [StateMachine.AddTransition_of_absent sm f t e cb hk]
    have hnot : (f, e) ∉ sm.m_transitionMap.map Prod.fst := (Map.find_eq_none_iff _ _).1 hk
    exact List.nodup_cons.2 ⟨hnot, h⟩
  | some v =>
    have h' : (sm.entry f e).isSome = true := by simp [hk]
    rw [StateMachine.AddTransition_of_present sm f t e cb h']
    exact h

/-- A call keeps the keys of the nodes distinct. -/
theorem Op.perform_nodup [StreamInsert S] [StreamInsert E] [Inhabited S]
    (call : Cb → W → W × Option X) (c : StateMachine S E Cb × World W Cb) (op : Op S E Cb)
    (h : (c.1.m_transitionMap.map Prod.fst).Nodup) :
    ((Op.perform call c op).1.m_transitionMap.map Prod.fst).Nodup := by
  cases op with
  | add f t e' cb => exact StateMachine.AddTransition_nodup c.1 f t e' cb h
  | addLoop f e' cb => exact StateMachine.AddTransition_nodup c.1 f f e' cb h
  | send ev =>
    show ((StateMachine.SendEvent call c.1 ev c.2).self.m_transitionMap.map Prod.fst).Nodup
    rw [StateMachine.SendEvent_table]
    exact h

/-- A sequence of calls keeps the keys of the nodes distinct. -/
theorem Op.performAll_nodup [StreamInsert S] [StreamInsert E] [Inhabited S]
    (call : Cb → W → W × Option X) (ops : List (Op S E Cb)) :
    ∀ (c : StateMachine S E Cb × World W Cb),
    (c.1.m_transitionMap.map Prod.fst).Nodup →
    ((Op.performAll call c ops).1.m_transitionMap.map Prod.fst).Nodup := by
  induction ops with
  | nil => intro c h; exact h
  | cons op ops ih =>
    intro c h
    exact ih (Op.perform call c op) (Op.perform_nodup call c op h)

/-- A call keeps the current state at `s0` or at the target of an entry. -/
theorem Op.perform_reach [StreamInsert S] [StreamInsert E] [Inhabited S]
    (call : Cb → W → W × Option X) (s0 : S) (c : StateMachine S E Cb × World W Cb)
    (op : Op S E Cb)
    (h : c.1.m_currentState = s0 ∨
      ∃ (s : S) (e : E) (cb : Option Cb), c.1.entry s e = some (c.1.m_currentState, cb)) :
    (Op.perform call c op).1.m_currentState = s0 ∨
      ∃ (s : S) (e : E) (cb : Option Cb),
        (Op.perform call c op).1.entry s e = some ((Op.perform call c op).1.m_currentState, cb) := by
  have hadd : ∀ (f t : S) (e' : E) (cb : Option Cb),
      (c.1.AddTransition f t e' cb).self.m_currentState = s0 ∨
      ∃ (s : S) (e : E) (cb0 : Option Cb),
        (c.1.AddTransition f t e' cb).self.entry s e
          = some ((c.1.AddTransition f t e' cb).self.m_currentState, cb0) := by
    intro f t e' cb
    rw [StateMachine.AddTransition_state]
    rcases h with h | ⟨s, e, cb0, h⟩
    · exact Or.inl h
    · exact Or.inr ⟨s, e, cb0, StateMachine.entry_AddTransition_of_some c.1 f t e' cb s e _ h⟩
  cases op with
  | add f t e' cb => exact hadd f t e' cb
  | addLoop f e' cb => exact hadd f f e' cb
  | send ev =>
    show (StateMachine.SendEvent call c.1 ev c.2).self.m_currentState = s0 ∨
      ∃ (s : S) (e : E) (cb : Option Cb),
        Map.find (StateMachine.SendEvent call c.1 ev c.2).self.m_transitionMap (s, e)
          = some ((StateMachine.SendEvent call c.1 ev c.2).self.m_currentState, cb)
    rw [StateMachine.SendEvent_table]
    rcases StateMachine.SendEvent_state_cases call c.1 ev c.2 with hsame | ⟨cb, hmove⟩
    · rw [hsame]
      exact h
    · exact Or.inr ⟨c.1.m_currentState, ev, cb, hmove⟩

/-- A sequence of calls keeps the current state at `s0` or at the target of an entry. -/
theorem Op.performAll_reach [StreamInsert S] [StreamInsert E] [Inhabited S]
    (call : Cb → W → W × Option X) (s0 : S) (ops : List (Op S E Cb)) :
    ∀ (c : StateMachine S E Cb × World W Cb),
    (c.1.m_currentState = s0 ∨
      ∃ (s : S) (e : E) (cb : Option Cb), c.1.entry s e = some (c.1.m_currentState, cb)) →
    ((Op.performAll call c ops).1.m_currentState = s0 ∨
      ∃ (s : S) (e : E) (cb : Option Cb),
        (Op.performAll call c ops).1.entry s e
          = some ((Op.performAll call c ops).1.m_currentState, cb)) := by
  induction ops with
  | nil => intro c h; exact h
  | cons op ops ih =>
    intro c h
    exact ih (Op.perform call c op) (Op.perform_reach call s0 c op h)

/-- C16: over any sequence of calls (either overload of `AddTransition`,
returning or throwing, and `SendEvent`), once the table maps `(s, e)` to
`(t, cb)` it maps `(s, e)` to the same `(t, cb)` after every later call; and
from construction on, no two nodes of the table have the same key. -/
theorem registered_transitions_are_permanent [StreamInsert S] [StreamInsert E] [Inhabited S]
    (call : Cb → W → W × Option X) (c : StateMachine S E Cb × World W Cb)
    (pre post : List (Op S E Cb)) (s t : S) (e : E) (cb : Option Cb)
    (h : (Op.performAll call c pre).1.entry s e = some (t, cb)) :
    (Op.performAll call c (pre ++ post)).1.entry s e = some (t, cb) ∧
    (∀ (s0 : S) (o : World W Cb) (ops : List (Op S E Cb)),
      ((Op.performAll call (StateMachine.new s0, o) ops).1.m_transitionMap.map
        Prod.fst).Nodup) := by
  refine ⟨?_, ?_⟩
  · rw [Op.performAll_append]
    exact Op.performAll_entry call post s e (t, cb) _ h
  · intro s0 o ops
    exact Op.performAll_nodup call ops (StateMachine.new s0, o) List.nodup_nil

/-- C17: after any sequence of calls on an engine constructed with `s0`, the
current state is `s0` or the target state of an entry that is in the table. -/
theorem current_state_is_initial_or_a_target [StreamInsert S] [StreamInsert E] [Inhabited S]
    (call : Cb → W → W × Option X) (s0 : S) (o : World W Cb) (ops : List (Op S E Cb)) :
    (Op.performAll call (StateMachine.new s0, o) ops).1.GetState = s0 ∨
    ∃ (s : S) (e : E) (cb : Option Cb),
      (Op.performAll call (StateMachine.new s0, o) ops).1.entry s e
        = some ((Op.performAll call (StateMachine.new s0, o) ops).1.GetState, cb) :=
  Op.performAll_reach call s0 ops (StateMachine.new s0, o) (Or.inl rfl)

end Callers

/-! ## Order of registration -/

section Order

variable {S E Cb W X : Type} [DecidableEq S] [DecidableEq E]

/-- C18: for two registrations with different keys, made in either order on
the same engine (each call is made whether or not the other one threw), each
call has the same outcome in both orders (the same exception or none), the two
resulting tables give the same lookup for every key, the current state is the
same, and every later run of events goes the same way. -/
theorem registration_order_is_irrelevant [StreamInsert S] [StreamInsert E] [Inhabited S]
    (sm : StateMachine S E Cb) (s1 t1 : S) (e1 : E) (cb1 : Option Cb)
    (s2 t2 : S) (e2 : E) (cb2 : Option Cb) (hne : (s1, e1) ≠ (s2, e2)) :
    (sm.AddTransition s1 t1 e1 cb1).raised
        = ((sm.AddTransition s2 t2 e2 cb2).self.AddTransition s1 t1 e1 cb1).raised ∧
    ((sm.AddTransition s1 t1 e1 cb1).self.AddTransition s2 t2 e2 cb2).raised
        = (sm.AddTransition s2 t2 e2 cb2).raised ∧
    (∀ (s : S) (e : E),
      ((sm.AddTransition s1 t1 e1 cb1).self.AddTransition s2 t2 e2 cb2).self.entry s e
        = ((sm.AddTransition s2 t2 e2 cb2).self.AddTransition s1 t1 e1 cb1).self.entry s e) ∧
    ((sm.AddTransition s1 t1 e1 cb1).self.AddTransition s2 t2 e2 cb2).self.GetState
        = ((sm.AddTransition s2 t2 e2 cb2).self.AddTransition s1 t1 e1 cb1).self.GetState ∧
    (∀ (call : Cb → W → W × Option X) (es : List E) (o : World W Cb),
      (StateMachine.SendEvents call
          ((sm.AddTransition s1 t1 e1 cb1).self.AddTransition s2 t2 e2 cb2).self es
          o).self.GetState
        = (StateMachine.SendEvents call
          ((sm.AddTransition s2 t2 e2 cb2).self.AddTransition s1 t1 e1 cb1).self es
          o).self.GetState ∧
      (StateMachine.SendEvents call
          ((sm.AddTransition s1 t1 e1 cb1).self.AddTransition s2 t2 e2 cb2).self es o).world
        = (StateMachine.SendEvents call
          ((sm.AddTransition s2 t2 e2 cb2).self.AddTransition s1 t1 e1 cb1).self es o).world ∧
      (StateMachine.SendEvents call
          ((sm.AddTransition s1 t1 e1 cb1).self.AddTransition s2 t2 e2 cb2).self es o).raised
        = (StateMachine.SendEvents call
          ((sm.AddTransition s2 t2 e2 cb2).self.AddTransition s1 t1 e1 cb1).self es
          o).raised) := by
  have hne' : (s2, e2) ≠ (s1, e1) := fun h => hne h.symm
  have hA2 : (sm.AddTransition s1 t1 e1 cb1).self.entry s2 e2 = sm.entry s2 e2 := by
    rw [StateMachine.entry_AddTransition, if_neg hne']
  have hB1 : (sm.AddTransition s2 t2 e2 cb2).self.entry s1 e1 = sm.entry s1 e1 := by
    rw [StateMachine.entry_AddTransition, if_neg hne]
  have hentries : ∀ (s : S) (e : E),
      ((sm.AddTransition s1 t1 e1 cb1).self.AddTransition s2 t2 e2 cb2).self.entry s e
        = ((sm.AddTransition s2 t2 e2 cb2).self.AddTransition s1 t1 e1 cb1).self.entry s e := by
    intro s e
    rw [StateMachine.entry_AddTransition (sm.AddTransition s1 t1 e1 cb1).self s2 t2 e2 cb2 s e,
      StateMachine.entry_AddTransition (sm.AddTransition s2 t2 e2 cb2).self s1 t1 e1 cb1 s e,
      hA2, hB1, StateMachine.entry_AddTransition sm s1 t1 e1 cb1 s e,
      StateMachine.entry_AddTransition sm s2 t2 e2 cb2 s e]
    by_cases h1 : (s, e) = (s1, e1)
    · by_cases h2 : (s, e) = (s2, e2)
      · exact absurd (h1.symm.trans h2) hne
      · rw [if_neg h2, if_pos h1, if_pos h1]
    · by_cases h2 : (s, e) = (s2, e2)
      · rw [if_pos h2, if_neg h1, if_pos h2]
      · rw [if_neg h2, if_neg h1, if_neg h1, if_neg h2]
  have hstate :
      ((sm.AddTransition s1 t1 e1 cb1).self.AddTransition s2 t2 e2 cb2).self.m_currentState
        = ((sm.AddTransition s2 t2 e2 cb2).self.AddTransition s1 t1 e1 cb1).self.m_currentState := by
    rw [StateMachine.AddTransition_state, StateMachine.AddTransition_state,
      StateMachine.AddTransition_state, StateMachine.AddTransition_state]
  refine ⟨?_, ?_, hentries, hstate, ?_⟩
  · rw [StateMachine.AddTransition_raised, StateMachine.AddTransition_raised, hB1]
  · rw [StateMachine.AddTransition_raised, StateMachine.AddTransition_raised, hA2]
  · intro call es o
    exact StateMachine.SendEvents_congr call es _ _ o hstate hentries

end Order

/-! ## Further instances on the engine of the demonstration -/

section MoreInstances

open test

/-- The engine of `main` and an engine with the same nodes in the opposite
order go through the events of `main` alike. -/
theorem SendEvents_replay_deterministic_witness :
    registrations.self.GetState
      = (⟨MyState.INIT, registrations.self.m_transitionMap.reverse⟩ :
          StateMachine MyState MyEvent Callback).GetState ∧
    (∀ (s : MyState) (e : MyEvent),
      registrations.self.entry s e
        = (⟨MyState.INIT, registrations.self.m_transitionMap.reverse⟩ :
            StateMachine MyState MyEvent Callback).entry s e) ∧
    ((StateMachine.SendEvents call registrations.self events start).self.GetState
        = (StateMachine.SendEvents call
            (⟨MyState.INIT, registrations.self.m_transitionMap.reverse⟩ :
              StateMachine MyState MyEvent Callback) events start).self.GetState ∧
     (StateMachine.SendEvents call registrations.self events start).world
        = (StateMachine.SendEvents call
            (⟨MyState.INIT, registrations.self.m_transitionMap.reverse⟩ :
              StateMachine MyState MyEvent Callback) events start).world ∧
     (StateMachine.SendEvents call registrations.self events start).raised
        = (StateMachine.SendEvents call
            (⟨MyState.INIT, registrations.self.m_transitionMap.reverse⟩ :
              StateMachine MyState MyEvent Callback) events start).raised) :=
  ⟨by decide,
   fun s e => by cases s <;> cases e <;> decide,
   (@SendEvents_replay_deterministic MyState MyEvent Callback OStream Empty OStream Empty
      _ _ _ registrations.self ⟨MyState.INIT, registrations.self.m_transitionMap.reverse⟩
      (by decide) (fun s e => by cases s <;> cases e <;> decide)).1 call events start⟩

/-- The engine of `main` in `SENT_AUTH`, sent `RECV_OK`: the entry has no
callback, nothing is invoked and the state is `READY`. -/
theorem SendEvent_null_callback_still_moves_witness :
    (⟨MyState.SENT_AUTH, registrations.self.m_transitionMap⟩ :
        StateMachine MyState MyEvent Callback).GetState = MyState.SENT_AUTH ∧
    (⟨MyState.SENT_AUTH, registrations.self.m_transitionMap⟩ :
        StateMachine MyState MyEvent Callback).entry MyState.SENT_AUTH MyEvent.RECV_OK
      = some (MyState.READY, none) ∧
    ((StateMachine.SendEvent call
        (⟨MyState.SENT_AUTH, registrations.self.m_transitionMap⟩ :
          StateMachine MyState MyEvent Callback) MyEvent.RECV_OK start).self.GetState
        = MyState.READY ∧
     (StateMachine.SendEvent call
        (⟨MyState.SENT_AUTH, registrations.self.m_transitionMap⟩ :
          StateMachine MyState MyEvent Callback) MyEvent.RECV_OK start).world.trace
        = start.trace ∧
     (StateMachine.SendEvent call
        (⟨MyState.SENT_AUTH, registrations.self.m_transitionMap⟩ :
          StateMachine MyState MyEvent Callback) MyEvent.RECV_OK start).world = start ∧
     (StateMachine.SendEvent call
        (⟨MyState.SENT_AUTH, registrations.self.m_transitionMap⟩ :
          StateMachine MyState MyEvent Callback) MyEvent.RECV_OK start).raised = none) :=
  ⟨by decide, by decide,
   SendEvent_null_callback_still_moves call
     ⟨MyState.SENT_AUTH, registrations.self.m_transitionMap⟩ MyState.SENT_AUTH MyState.READY
     MyEvent.RECV_OK start (by decide) (by decide)⟩

/-- On the engine of `main`, `EPSILON` in `INIT` reaches the subscript
operator, which inserts nothing. -/
theorem SendEvent_keeps_table_witness :
    Map.count registrations.self.m_transitionMap
        (registrations.self.m_currentState, MyEvent.EPSILON) ≠ 0 ∧
    (Map.subscript registrations.self.m_transitionMap
        (registrations.self.m_currentState, MyEvent.EPSILON)).2
      = registrations.self.m_transitionMap :=
  ⟨by decide,
   (SendEvent_keeps_table call registrations.self MyEvent.EPSILON start).2.2 (by decide)⟩

/-- The entry under `(INIT, EPSILON)` survives a failing registration under
the same key, a dispatch of `EPSILON` and a failing loop registration. -/
theorem registered_transitions_are_permanent_witness :
    (Op.performAll call (StateMachine.new MyState.INIT, start)
        [Op.add MyState.INIT MyState.SENT_HELLO MyEvent.EPSILON
          (some Callback.doSendHello)]).1.entry MyState.INIT MyEvent.EPSILON
      = some (MyState.SENT_HELLO, some Callback.doSendHello) ∧
    (Op.performAll call (StateMachine.new MyState.INIT, start)
        ([Op.add MyState.INIT MyState.SENT_HELLO MyEvent.EPSILON (some Callback.doSendHello)]
          ++ [Op.add MyState.INIT MyState.READY MyEvent.EPSILON none, Op.send MyEvent.EPSILON,
              Op.addLoop MyState.INIT MyEvent.EPSILON none])).1.entry
        MyState.INIT MyEvent.EPSILON
      = some (MyState.SENT_HELLO, some Callback.doSendHello) :=
  ⟨by decide,
   (registered_transitions_are_permanent call (StateMachine.new MyState.INIT, start)
      [Op.add MyState.INIT MyState.SENT_HELLO MyEvent.EPSILON (some Callback.doSendHello)]
      [Op.add MyState.INIT MyState.READY MyEvent.EPSILON none, Op.send MyEvent.EPSILON,
        Op.addLoop MyState.INIT MyEvent.EPSILON none]
      MyState.INIT MyState.SENT_HELLO MyEvent.EPSILON (some Callback.doSendHello)
      (by decide)).1⟩

/-- The first two registrations of `main`, made in either order on the fresh
engine, both return normally and give the same lookups. -/
theorem registration_order_is_irrelevant_witness :
    (MyState.INIT, MyEvent.EPSILON) ≠ (MyState.SENT_HELLO, MyEvent.RECV_OK) ∧
    ((StateMachine.new MyState.INIT : StateMachine MyState MyEvent Callback).AddTransition
        MyState.INIT MyState.SENT_HELLO MyEvent.EPSILON (some Callback.doSendHello)).raised
      = (((StateMachine.new MyState.INIT : StateMachine MyState MyEvent Callback).AddTransition
          MyState.SENT_HELLO MyState.SENT_AUTH MyEvent.RECV_OK
          (some Callback.doSendAuth)).self.AddTransition
        MyState.INIT MyState.SENT_HELLO MyEvent.EPSILON (some Callback.doSendHello)).raised ∧
    (∀ (s : MyState) (e : MyEvent),
      (((StateMachine.new MyState.INIT : StateMachine MyState MyEvent Callback).AddTransition
          MyState.INIT MyState.SENT_HELLO MyEvent.EPSILON
          (some Callback.doSendHello)).self.AddTransition
        MyState.SENT_HELLO MyState.SENT_AUTH MyEvent.RECV_OK
        (some Callback.doSendAuth)).self.entry s e
      = (((StateMachine.new MyState.INIT : StateMachine MyState MyEvent Callback).AddTransition
          MyState.SENT_HELLO MyState.SENT_AUTH MyEvent.RECV_OK
          (some Callback.doSendAuth)).self.AddTransition
        MyState.INIT MyState.SENT_HELLO MyEvent.EPSILON
        (some Callback.doSendHello)).self.entry s e) :=
  ⟨by decide,
   (@registration_order_is_irrelevant MyState MyEvent Callback OStream Empty _ _ _ _ _
      (StateMachine.new MyState.INIT) MyState.INIT MyState.SENT_HELLO MyEvent.EPSILON
      (some Callback.doSendHello) MyState.SENT_HELLO MyState.SENT_AUTH MyEvent.RECV_OK
      (some Callback.doSendAuth) (by decide)).1,
   (@registration_order_is_irrelevant MyState MyEvent Callback OStream Empty _ _ _ _ _
      (StateMachine.new MyState.INIT) MyState.INIT MyState.SENT_HELLO MyEvent.EPSILON
      (some Callback.doSendHello) MyState.SENT_HELLO MyState.SENT_AUTH MyEvent.RECV_OK
      (some Callback.doSendAuth) (by decide)).2.2.1⟩

end MoreInstances

/-! ## Dispatch of a registered transition, at any later time -/

section Registered

variable {S E Cb W X : Type} [DecidableEq S] [DecidableEq E]

/-- C5: after `AddTransition(s, t, e, cb)` has returned normally, and after
any further calls on the engine, whenever the engine is in current state `s`,
`SendEvent(e)` invokes `cb` once and nothing else (the trace grows by exactly
`cb`, the world is the one a single run of `cb` leaves), and when `cb` returns
`GetState()` is `t`. -/
theorem SendEvent_after_AddTransition [StreamInsert S] [StreamInsert E] [Inhabited S]
    (call : Cb → W → W × Option X)
    (sm : StateMachine S E Cb) (s t : S) (e : E) (cb : Cb) (o : World W Cb)
    (ops : List (Op S E Cb))
    (hadd : (sm.AddTransition s t e (some cb)).raised = none)
    (hs : (Op.performAll call ((sm.AddTransition s t e (some cb)).self, o) ops).1.GetState
      = s) :
    (StateMachine.SendEvent call
        (Op.performAll call ((sm.AddTransition s t e (some cb)).self, o) ops).1 e
        (Op.performAll call ((sm.AddTransition s t e (some cb)).self, o) ops).2).world.trace
      = (Op.performAll call ((sm.AddTransition s t e (some cb)).self, o) ops).2.trace
          ++ [cb] ∧
    (StateMachine.SendEvent call
        (Op.performAll call ((sm.AddTransition s t e (some cb)).self, o) ops).1 e
        (Op.performAll call ((sm.AddTransition s t e (some cb)).self, o) ops).2).world.ext
      = (call cb
          (Op.performAll call ((sm.AddTransition s t e (some cb)).self, o) ops).2.ext).1 ∧
    (StateMachine.SendEvent call
        (Op.performAll call ((sm.AddTransition s t e (some cb)).self, o) ops).1 e
        (Op.performAll call ((sm.AddTransition s t e (some cb)).self, o) ops).2).raised
      = (call cb
          (Op.performAll call ((sm.AddTransition s t e (some cb)).self, o) ops).2.ext).2 ∧
    ((call cb
        (Op.performAll call ((sm.AddTransition s t e (some cb)).self, o) ops).2.ext).2 = none →
      (StateMachine.SendEvent call
          (Op.performAll call ((sm.AddTransition s t e (some cb)).self, o) ops).1 e
          (Op.performAll call ((sm.AddTransition s t e (some cb)).self, o)
            ops).2).self.GetState = t) := by
  have habs : sm.entry s e = none :=
    (StateMachine.AddTransition_raised_eq_none_iff sm s t e (some cb)).1 hadd
  have hreg : (sm.AddTransition s t e (some cb)).self.entry s e = some (t, some cb) := by
    rw [StateMachine.AddTransition_of_absent sm s t e (some cb) habs]
    exact Map.find_cons_self _ _ _
  have hlater := Op.performAll_entry call ops s e (t, some cb)
    ((sm.AddTransition s t e (some cb)).self, o) hreg
  generalize Op.performAll call ((sm.AddTransition s t e (some cb)).self, o) ops = c at hs hlater ⊢
  have hent : c.1.entry c.1.m_currentState e = some (t, some cb) := by
    rw [show c.1.m_currentState = s from hs]
    exact hlater
  cases hx : (call cb c.2.ext).2 with
  | none =>
    rw [StateMachine.SendEvent_of_returns call c.1 e c.2 t cb hent hx]
    exact ⟨rfl, rfl, rfl, fun _ => rfl⟩
  | some x =>
    rw [StateMachine.SendEvent_of_throws call c.1 e c.2 t cb x hent hx]
    exact ⟨rfl, rfl, rfl, fun hn => by cases hn⟩

end Registered

section LateInstances

open test

/-- The second registration of `main`, then the three others and `EPSILON`:
the engine is in `SENT_HELLO`, and `RECV_OK` runs `doSendAuth` once and leaves
the state `SENT_AUTH`. -/
theorem SendEvent_after_AddTransition_witness :
    (((StateMachine.new MyState.INIT : StateMachine MyState MyEvent Callback).AddTransition
        MyState.INIT MyState.SENT_HELLO MyEvent.EPSILON
        (some Callback.doSendHello)).self.AddTransition
      MyState.SENT_HELLO MyState.SENT_AUTH MyEvent.RECV_OK (some Callback.doSendAuth)).raised
      = none ∧
    (Op.performAll call
        ((((StateMachine.new MyState.INIT : StateMachine MyState MyEvent Callback).AddTransition
            MyState.INIT MyState.SENT_HELLO MyEvent.EPSILON
            (some Callback.doSendHello)).self.AddTransition
          MyState.SENT_HELLO MyState.SENT_AUTH MyEvent.RECV_OK (some Callback.doSendAuth)).self,
          start)
        [Op.add MyState.SENT_AUTH MyState.READY MyEvent.RECV_OK none,
         Op.addLoop MyState.SENT_HELLO MyEvent.TIMEOUT (some Callback.doSendHello),
         Op.add MyState.SENT_AUTH MyState.SENT_HELLO MyEvent.TIMEOUT (some Callback.doSendHello),
         Op.send MyEvent.EPSILON]).1.GetState = MyState.SENT_HELLO ∧
    (Op.performAll call
        ((((StateMachine.new MyState.INIT : StateMachine MyState MyEvent Callback).AddTransition
            MyState.INIT MyState.SENT_HELLO MyEvent.EPSILON
            (some Callback.doSendHello)).self.AddTransition
          MyState.SENT_HELLO MyState.SENT_AUTH MyEvent.RECV_OK (some Callback.doSendAuth)).self,
          start)
        [Op.add MyState.SENT_AUTH MyState.READY MyEvent.RECV_OK none,
         Op.addLoop MyState.SENT_HELLO MyEvent.TIMEOUT (some Callback.doSendHello),
         Op.add MyState.SENT_AUTH MyState.SENT_HELLO MyEvent.TIMEOUT (some Callback.doSendHello),
         Op.send MyEvent.EPSILON]).1.GetState ≠ ((StateMachine.new MyState.INIT :
      StateMachine MyState MyEvent Callback).AddTransition
        MyState.INIT MyState.SENT_HELLO MyEvent.EPSILON
        (some Callback.doSendHello)).self.GetState ∧
    ((StateMachine.SendEvent call
      (Op.performAll call
        ((((StateMachine.new MyState.INIT : StateMachine MyState MyEvent Callback).AddTransition
            MyState.INIT MyState.SENT_HELLO MyEvent.EPSILON
            (some Callback.doSendHello)).self.AddTransition
          MyState.SENT_HELLO MyState.SENT_AUTH MyEvent.RECV_OK (some Callback.doSendAuth)).self,
          start)
        [Op.add MyState.SENT_AUTH MyState.READY MyEvent.RECV_OK none,
         Op.addLoop MyState.SENT_HELLO MyEvent.TIMEOUT (some Callback.doSendHello),
         Op.add MyState.SENT_AUTH MyState.SENT_HELLO MyEvent.TIMEOUT (some Callback.doSendHello),
         Op.send MyEvent.EPSILON]).1 MyEvent.RECV_OK
      (Op.performAll call
        ((((StateMachine.new MyState.INIT : StateMachine MyState MyEvent Callback).AddTransition
            MyState.INIT MyState.SENT_HELLO MyEvent.EPSILON
            (some Callback.doSendHello)).self.AddTransition
          MyState.SENT_HELLO MyState.SENT_AUTH MyEvent.RECV_OK (some Callback.doSendAuth)).self,
          start)
        [Op.add MyState.SENT_AUTH MyState.READY MyEvent.RECV_OK none,
         Op.addLoop MyState.SENT_HELLO MyEvent.TIMEOUT (some Callback.doSendHello),
         Op.add MyState.SENT_AUTH MyState.SENT_HELLO MyEvent.TIMEOUT (some Callback.doSendHello),
         Op.send MyEvent.EPSILON]).2).world.trace
      = (Op.performAll call
        ((((StateMachine.new MyState.INIT : StateMachine MyState MyEvent Callback).AddTransition
            MyState.INIT MyState.SENT_HELLO MyEvent.EPSILON
            (some Callback.doSendHello)).self.AddTransition
          MyState.SENT_HELLO MyState.SENT_AUTH MyEvent.RECV_OK (some Callback.doSendAuth)).self,
          start)
        [Op.add MyState.SENT_AUTH MyState.READY MyEvent.RECV_OK none,
         Op.addLoop MyState.SENT_HELLO MyEvent.TIMEOUT (some Callback.doSendHello),
         Op.add MyState.SENT_AUTH MyState.SENT_HELLO MyEvent.TIMEOUT (some Callback.doSendHello),
         Op.send MyEvent.EPSILON]).2.trace ++ [Callback.doSendAuth] ∧
     (StateMachine.SendEvent call
      (Op.performAll call
        ((((StateMachine.new MyState.INIT : StateMachine MyState MyEvent Callback).AddTransition
            MyState.INIT MyState.SENT_HELLO MyEvent.EPSILON
            (some Callback.doSendHello)).self.AddTransition
          MyState.SENT_HELLO MyState.SENT_AUTH MyEvent.RECV_OK (some Callback.doSendAuth)).self,
          start)
        [Op.add MyState.SENT_AUTH MyState.READY MyEvent.RECV_OK none,
         Op.addLoop MyState.SENT_HELLO MyEvent.TIMEOUT (some Callback.doSendHello),
         Op.add MyState.SENT_AUTH MyState.SENT_HELLO MyEvent.TIMEOUT (some Callback.doSendHello),
         Op.send MyEvent.EPSILON]).1 MyEvent.RECV_OK
      (Op.performAll call
        ((((StateMachine.new MyState.INIT : StateMachine MyState MyEvent Callback).AddTransition
            MyState.INIT MyState.SENT_HELLO MyEvent.EPSILON
            (some Callback.doSendHello)).self.AddTransition
          MyState.SENT_HELLO MyState.SENT_AUTH MyEvent.RECV_OK (some Callback.doSendAuth)).self,
          start)
        [Op.add MyState.SENT_AUTH MyState.READY MyEvent.RECV_OK none,
         Op.addLoop MyState.SENT_HELLO MyEvent.TIMEOUT (some Callback.doSendHello),
         Op.add MyState.SENT_AUTH MyState.SENT_HELLO MyEvent.TIMEOUT (some Callback.doSendHello),
         Op.send MyEvent.EPSILON]).2).world.ext
      = (call Callback.doSendAuth
      (Op.performAll call
        ((((StateMachine.new MyState.INIT : StateMachine MyState MyEvent Callback).AddTransition
            MyState.INIT MyState.SENT_HELLO MyEvent.EPSILON
            (some Callback.doSendHello)).self.AddTransition
          MyState.SENT_HELLO MyState.SENT_AUTH MyEvent.RECV_OK (some Callback.doSendAuth)).self,
          start)
        [Op.add MyState.SENT_AUTH MyState.READY MyEvent.RECV_OK none,
         Op.addLoop MyState.SENT_HELLO MyEvent.TIMEOUT (some Callback.doSendHello),
         Op.add MyState.SENT_AUTH MyState.SENT_HELLO MyEvent.TIMEOUT (some Callback.doSendHello),
         Op.send MyEvent.EPSILON]).2.ext).1 ∧
     (StateMachine.SendEvent call
      (Op.performAll call
        ((((StateMachine.new MyState.INIT : StateMachine MyState MyEvent Callback).AddTransition
            MyState.INIT MyState.SENT_HELLO MyEvent.EPSILON
            (some Callback.doSendHello)).self.AddTransition
          MyState.SENT_HELLO MyState.SENT_AUTH MyEvent.RECV_OK (some Callback.doSendAuth)).self,
          start)
        [Op.add MyState.SENT_AUTH MyState.READY MyEvent.RECV_OK none,
         Op.addLoop MyState.SENT_HELLO MyEvent.TIMEOUT (some Callback.doSendHello),
         Op.add MyState.SENT_AUTH MyState.SENT_HELLO MyEvent.TIMEOUT (some Callback.doSendHello),
         Op.send MyEvent.EPSILON]).1 MyEvent.RECV_OK
      (Op.performAll call
        ((((StateMachine.new MyState.INIT : StateMachine MyState MyEvent Callback).AddTransition
            MyState.INIT MyState.SENT_HELLO MyEvent.EPSILON
            (some Callback.doSendHello)).self.AddTransition
          MyState.SENT_HELLO MyState.SENT_AUTH MyEvent.RECV_OK (some Callback.doSendAuth)).self,
          start)
        [Op.add MyState.SENT_AUTH MyState.READY MyEvent.RECV_OK none,
         Op.addLoop MyState.SENT_HELLO MyEvent.TIMEOUT (some Callback.doSendHello),
         Op.add MyState.SENT_AUTH MyState.SENT_HELLO MyEvent.TIMEOUT (some Callback.doSendHello),
         Op.send MyEvent.EPSILON]).2).raised
      = (call Callback.doSendAuth
      (Op.performAll call
        ((((StateMachine.new MyState.INIT : StateMachine MyState MyEvent Callback).AddTransition
            MyState.INIT MyState.SENT_HELLO MyEvent.EPSILON
            (some Callback.doSendHello)).self.AddTransition
          MyState.SENT_HELLO MyState.SENT_AUTH MyEvent.RECV_OK (some Callback.doSendAuth)).self,
          start)
        [Op.add MyState.SENT_AUTH MyState.READY MyEvent.RECV_OK none,
         Op.addLoop MyState.SENT_HELLO MyEvent.TIMEOUT (some Callback.doSendHello),
         Op.add MyState.SENT_AUTH MyState.SENT_HELLO MyEvent.TIMEOUT (some Callback.doSendHello),
         Op.send MyEvent.EPSILON]).2.ext).2 ∧
     ((call Callback.doSendAuth
      (Op.performAll call
        ((((StateMachine.new MyState.INIT : StateMachine MyState MyEvent Callback).AddTransition
            MyState.INIT MyState.SENT_HELLO MyEvent.EPSILON
            (some Callback.doSendHello)).self.AddTransition
          MyState.SENT_HELLO MyState.SENT_AUTH MyEvent.RECV_OK (some Callback.doSendAuth)).self,
          start)
        [Op.add MyState.SENT_AUTH MyState.READY MyEvent.RECV_OK none,
         Op.addLoop MyState.SENT_HELLO MyEvent.TIMEOUT (some Callback.doSendHello),
         Op.add MyState.SENT_AUTH MyState.SENT_HELLO MyEvent.TIMEOUT (some Callback.doSendHello),
         Op.send MyEvent.EPSILON]).2.ext).2 = none →
      (StateMachine.SendEvent call
      (Op.performAll call
        ((((StateMachine.new MyState.INIT : StateMachine MyState MyEvent Callback).AddTransition
            MyState.INIT MyState.SENT_HELLO MyEvent.EPSILON
            (some Callback.doSendHello)).self.AddTransition
          MyState.SENT_HELLO MyState.SENT_AUTH MyEvent.RECV_OK (some Callback.doSendAuth)).self,
          start)
        [Op.add MyState.SENT_AUTH MyState.READY MyEvent.RECV_OK none,
         Op.addLoop MyState.SENT_HELLO MyEvent.TIMEOUT (some Callback.doSendHello),
         Op.add MyState.SENT_AUTH MyState.SENT_HELLO MyEvent.TIMEOUT (some Callback.doSendHello),
         Op.send MyEvent.EPSILON]).1 MyEvent.RECV_OK
      (Op.performAll call
        ((((StateMachine.new MyState.INIT : StateMachine MyState MyEvent Callback).AddTransition
            MyState.INIT MyState.SENT_HELLO MyEvent.EPSILON
            (some Callback.doSendHello)).self.AddTransition
          MyState.SENT_HELLO MyState.SENT_AUTH MyEvent.RECV_OK (some Callback.doSendAuth)).self,
          start)
        [Op.add MyState.SENT_AUTH MyState.READY MyEvent.RECV_OK none,
         Op.addLoop MyState.SENT_HELLO MyEvent.TIMEOUT (some Callback.doSendHello),
         Op.add MyState.SENT_AUTH MyState.SENT_HELLO MyEvent.TIMEOUT (some Callback.doSendHello),
         Op.send MyEvent.EPSILON]).2).self.GetState = MyState.SENT_AUTH)) ∧
    (StateMachine.SendEvent call
      (Op.performAll call
        ((((StateMachine.new MyState.INIT : StateMachine MyState MyEvent Callback).AddTransition
            MyState.INIT MyState.SENT_HELLO MyEvent.EPSILON
            (some Callback.doSendHello)).self.AddTransition
          MyState.SENT_HELLO MyState.SENT_AUTH MyEvent.RECV_OK (some Callback.doSendAuth)).self,
          start)
        [Op.add MyState.SENT_AUTH MyState.READY MyEvent.RECV_OK none,
         Op.addLoop MyState.SENT_HELLO MyEvent.TIMEOUT (some Callback.doSendHello),
         Op.add MyState.SENT_AUTH MyState.SENT_HELLO MyEvent.TIMEOUT (some Callback.doSendHello),
         Op.send MyEvent.EPSILON]).1 MyEvent.RECV_OK
      (Op.performAll call
        ((((StateMachine.new MyState.INIT : StateMachine MyState MyEvent Callback).AddTransition
            MyState.INIT MyState.SENT_HELLO MyEvent.EPSILON
            (some Callback.doSendHello)).self.AddTransition
          MyState.SENT_HELLO MyState.SENT_AUTH MyEvent.RECV_OK (some Callback.doSendAuth)).self,
          start)
        [Op.add MyState.SENT_AUTH MyState.READY MyEvent.RECV_OK none,
         Op.addLoop MyState.SENT_HELLO MyEvent.TIMEOUT (some Callback.doSendHello),
         Op.add MyState.SENT_AUTH MyState.SENT_HELLO MyEvent.TIMEOUT (some Callback.doSendHello),
         Op.send MyEvent.EPSILON]).2).world.trace = [Callback.doSendHello, Callback.doSendAuth] ∧
    (StateMachine.SendEvent call
      (Op.performAll call
        ((((StateMachine.new MyState.INIT : StateMachine MyState MyEvent Callback).AddTransition
            MyState.INIT MyState.SENT_HELLO MyEvent.EPSILON
            (some Callback.doSendHello)).self.AddTransition
          MyState.SENT_HELLO MyState.SENT_AUTH MyEvent.RECV_OK (some Callback.doSendAuth)).self,
          start)
        [Op.add MyState.SENT_AUTH MyState.READY MyEvent.RECV_OK none,
         Op.addLoop MyState.SENT_HELLO MyEvent.TIMEOUT (some Callback.doSendHello),
         Op.add MyState.SENT_AUTH MyState.SENT_HELLO MyEvent.TIMEOUT (some Callback.doSendHello),
         Op.send MyEvent.EPSILON]).1 MyEvent.RECV_OK
      (Op.performAll call
        ((((StateMachine.new MyState.INIT : StateMachine MyState MyEvent Callback).AddTransition
            MyState.INIT MyState.SENT_HELLO MyEvent.EPSILON
            (some Callback.doSendHello)).self.AddTransition
          MyState.SENT_HELLO MyState.SENT_AUTH MyEvent.RECV_OK (some Callback.doSendAuth)).self,
          start)
        [Op.add MyState.SENT_AUTH MyState.READY MyEvent.RECV_OK none,
         Op.addLoop MyState.SENT_HELLO MyEvent.TIMEOUT (some Callback.doSendHello),
         Op.add MyState.SENT_AUTH MyState.SENT_HELLO MyEvent.TIMEOUT (some Callback.doSendHello),
         Op.send MyEvent.EPSILON]).2).self.GetState = MyState.SENT_AUTH :=
  ⟨by decide, by decide, by decide,
   SendEvent_after_AddTransition call
     ((StateMachine.new MyState.INIT : StateMachine MyState MyEvent Callback).AddTransition
        MyState.INIT MyState.SENT_HELLO MyEvent.EPSILON (some Callback.doSendHello)).self
     MyState.SENT_HELLO MyState.SENT_AUTH MyEvent.RECV_OK Callback.doSendAuth start
     [Op.add MyState.SENT_AUTH MyState.READY MyEvent.RECV_OK none,
      Op.addLoop MyState.SENT_HELLO MyEvent.TIMEOUT (some Callback.doSendHello),
      Op.add MyState.SENT_AUTH MyState.SENT_HELLO MyEvent.TIMEOUT (some Callback.doSendHello),
      Op.send MyEvent.EPSILON]
     (by decide) (by decide),
   by decide, by decide⟩

end LateInstances

end cppsm
